import Mathlib

/-!
# Block receiver and voluntary-exit validation of the beacon chain

A shallow embedding of `beacon-chain/blockchain/receive_block.go` and of the
behaviour fixed by `beacon-chain/core/exit/validation_test.go`.

Conventions of the embedding.

* Go byte slices (`[]byte`) are lists of naturals, `bytes.Equal` is list
  equality (a nil slice and an empty slice are both `[]`).
* A Go `[32]byte` is `Root32`; `root[:]` is `Root32.bytes`.
* Pointers that the source dereferences (`Block`, `Body`) are `Option`s; a
  dereference of `nil` ends the run with `Outcome.nilDeref`.
* `proto.Clone` is the identity on values; blocks are immutable values.
* The collaborators of the receiver (p2p, fork-choice store, block storage,
  head tracker, attestation pool, hashing helpers) are fields of `Deps`; each
  one owns its own piece of state, threaded explicitly.
* Every collaborator invocation, feed send and log line of a run is recorded,
  in program order, in `Run.trace`.
* Tracing spans and the mutex around the participation table have no
  counterpart: runs are sequential.
-/

namespace Prysm

/-- A Go byte slice. -/
abbrev Bytes := List Nat

/-- A Go `[32]byte` array. -/
structure Root32 where
  bytes : Bytes
  size : bytes.length = 32
  deriving DecidableEq

/-- Go errors as built by `errors.New` and `errors.Wrap`. -/
inductive Error where
  | New (msg : String)
  | Wrap (cause : Error) (msg : String)
  deriving DecidableEq

/-- An attestation carried in a block body; the receiver never inspects it. -/
structure Attestation where
  raw : Bytes
  deriving DecidableEq

/-- A deposit carried in a block body; the receiver never inspects it. -/
structure Deposit where
  raw : Bytes
  deriving DecidableEq

/-- The part of `ethpb.BeaconBlockBody` the receiver reads. -/
structure BeaconBlockBody where
  Attestations : List Attestation
  Deposits : List Deposit
  deriving DecidableEq

/-- The part of `ethpb.BeaconBlock` the receiver reads; `Body` is a pointer. -/
structure BeaconBlock where
  Slot : Nat
  ParentRoot : Bytes
  Body : Option BeaconBlockBody
  deriving DecidableEq

/-- An `ethpb.SignedBeaconBlock`; `Block` is a pointer. -/
structure SignedBeaconBlock where
  Block : Option BeaconBlock
  Signature : Bytes
  deriving DecidableEq

/-- The `precompute.Balance` aggregate; its fields are not inspected here. -/
structure Balance where
  fields : List Nat
  deriving DecidableEq

/-- A `feed.Event` of type `statefeed.BlockProcessed` with its data. -/
structure Event where
  BlockRoot : Root32
  Verified : Bool
  deriving DecidableEq

/-- The log lines written by the receiver (fields kept raw, not hex encoded). -/
inductive LogEntry where
  | broadcasting (blockRoot : Root32)
  | couldNotSaveAttestation (err : Error)
  | calculatedHeadDiffs (blkSlot : Nat) (blkRoot : Bytes) (headSlot : Nat) (headRoot : Bytes)
  | finishedApplying (slot attestations deposits : Nat)
  deriving DecidableEq

/-- One observable step of a run: a collaborator invocation, a send on the
state feed, or a log line. -/
inductive Action where
  | Broadcast (block : SignedBeaconBlock)
  | OnBlockCacheFilteredTree (block : SignedBeaconBlock)
  | OnBlock (block : SignedBeaconBlock)
  | OnBlockInitialSyncStateTransition (block : SignedBeaconBlock)
  | Head
  | HeadRoot
  | Block (root : Root32)
  | saveHead (block : SignedBeaconBlock) (root : Root32)
  | saveHeadNoDB (block : SignedBeaconBlock) (root : Root32)
  | Send (event : Event)
  | SaveBlockAttestations (atts : List Attestation)
  | reportSlotMetrics (slot : Nat)
  | logStateTransitionData (block : BeaconBlock)
  | Log (entry : LogEntry)
  deriving DecidableEq

/-- The two toggles read through `featureconfig.Get()`. -/
structure Flags where
  DisableForkChoice : Bool
  InitSyncCacheState : Bool
  deriving DecidableEq

/-- How a receive call ends: `nil`, a non-nil `error`, or a nil-pointer panic. -/
inductive Outcome where
  | ok
  | error (err : Error)
  | nilDeref
  deriving DecidableEq

/-- What a state-transition call of the fork-choice store leaves behind: the
store, the block storage it writes, the package-level `precompute.Balances`
that epoch processing sets, and the returned error. -/
structure Transition (FC DB : Type) where
  store : FC
  db : DB
  balances : Balance
  err : Option Error

/-- What a head save leaves behind: the head tracker, the block storage, and
the returned error. -/
structure HeadSave (DB HD : Type) where
  head : HD
  db : DB
  err : Option Error

/-- The state a receive call runs against. `forkChoiceStore`, `beaconDB` and
`head` are the states of the fork-choice store, of block storage and of the
head tracker (the cached root, block and state); the four counters are the
package-level metrics. -/
structure Service (FC DB HD : Type) where
  forkChoiceStore : FC
  beaconDB : DB
  head : HD
  precomputeBalances : Balance
  epochParticipation : Nat → Option Balance
  processedBlk : Nat
  processedBlkNoPubsub : Nat
  processedBlkNoPubsubForkchoice : Nat
  competingBlks : Nat

/-- The collaborators of the receiver, none of which is defined in
`receive_block.go`. -/
structure Deps (FC DB HD : Type) where
  HashTreeRoot : Option BeaconBlock → Except Error Root32
  ToBytes32 : Bytes → Root32
  SlotToEpoch : Nat → Nat
  Broadcast : SignedBeaconBlock → Option Error
  OnBlockCacheFilteredTree : FC → DB → Balance → SignedBeaconBlock → Transition FC DB
  OnBlock : FC → DB → Balance → SignedBeaconBlock → Transition FC DB
  OnBlockInitialSyncStateTransition : FC → DB → Balance → SignedBeaconBlock → Transition FC DB
  Head : FC → Except Error Bytes
  HeadRoot : HD → DB → Except Error Bytes
  Block : DB → Root32 → Except Error (Option SignedBeaconBlock)
  saveHead : HD → DB → SignedBeaconBlock → Root32 → HeadSave DB HD
  saveHeadNoDB : HD → DB → SignedBeaconBlock → Root32 → HeadSave DB HD
  SaveBlockAttestations : List Attestation → Option Error

/-- The result of a run: the state left behind, what the run did, and how it
ended. -/
structure Run (FC DB HD : Type) where
  service : Service FC DB HD
  trace : List Action
  result : Outcome

/-- A Go map write `m[k] = v`. -/
def mapSet (m : Nat → Option Balance) (k : Nat) (v : Balance) : Nat → Option Balance :=
  fun k' => if k' = k then some v else m k'

variable {FC DB HD : Type}

/-- Source `isCompetingBlock`: the log lines and the new value of
`competingBlks`. -/
def isCompetingBlock (root : Bytes) (slot : Nat) (headRoot : Bytes) (headSlot : Nat)
    (competingBlks : Nat) : List Action × Nat :=
  if root ≠ headRoot then
    ([Action.Log (LogEntry.calculatedHeadDiffs slot root headSlot headRoot)], competingBlks + 1)
  else
    ([], competingBlks)

/-- Source `Service.ReceiveBlockNoPubsub`. -/
def ReceiveBlockNoPubsub (d : Deps FC DB HD) (cfg : Flags) (s : Service FC DB HD)
    (block : SignedBeaconBlock) : Run FC DB HD :=
  let blockCopy := block
  let t := d.OnBlockCacheFilteredTree s.forkChoiceStore s.beaconDB s.precomputeBalances blockCopy
  let s1 := { s with forkChoiceStore := t.store, beaconDB := t.db, precomputeBalances := t.balances }
  let tr1 := [Action.OnBlockCacheFilteredTree blockCopy]
  match t.err with
  | some err => ⟨s1, tr1, .error (.Wrap err "could not process block from fork choice service")⟩
  | none =>
  match d.HashTreeRoot blockCopy.Block with
  | .error err => ⟨s1, tr1, .error (.Wrap err "could not get signing root on received block")⟩
  | .ok root =>
  -- the part common to both branches once the head step is through
  let rest (s2 : Service FC DB HD) (tr2 : List Action) : Run FC DB HD :=
    let tr3 := tr2 ++ [Action.Send ⟨root, true⟩]
    match blockCopy.Block with
    | none => ⟨s2, tr3, .nilDeref⟩
    | some b =>
    match b.Body with
    | none => ⟨s2, tr3, .nilDeref⟩
    | some body =>
    let tr4 := tr3 ++ [Action.SaveBlockAttestations body.Attestations]
    match d.SaveBlockAttestations body.Attestations with
    | some err => ⟨s2, tr4 ++ [Action.Log (.couldNotSaveAttestation err)], .ok⟩
    | none =>
    ⟨{ s2 with
        epochParticipation :=
          mapSet s2.epochParticipation (d.SlotToEpoch b.Slot) s2.precomputeBalances,
        processedBlkNoPubsub := s2.processedBlkNoPubsub + 1 },
      tr4 ++ [Action.reportSlotMetrics b.Slot, Action.logStateTransitionData b], .ok⟩
  if cfg.DisableForkChoice then
    let hs := d.saveHead s1.head s1.beaconDB blockCopy root
    let s2 := { s1 with head := hs.head, beaconDB := hs.db }
    let tr2 := tr1 ++ [Action.saveHead blockCopy root]
    match hs.err with
    | some err => ⟨s2, tr2, .error (.Wrap err "could not save head")⟩
    | none => rest s2 tr2
  else
    let tr2 := tr1 ++ [Action.Head]
    match d.Head s1.forkChoiceStore with
    | .error err => ⟨s1, tr2, .error (.Wrap err "could not get head from fork choice service")⟩
    | .ok headRoot =>
    let tr3 := tr2 ++ [Action.HeadRoot]
    match d.HeadRoot s1.head s1.beaconDB with
    | .error err => ⟨s1, tr3, .error (.Wrap err "could not get head root from cache")⟩
    | .ok cachedHeadRoot =>
    if headRoot ≠ cachedHeadRoot then
      let tr4 := tr3 ++ [Action.Block (d.ToBytes32 headRoot)]
      match d.Block s1.beaconDB (d.ToBytes32 headRoot) with
      | .error err => ⟨s1, tr4, .error (.Wrap err "could not compute state from block head")⟩
      | .ok none => ⟨s1, tr4, .error (.New "nil head block")⟩
      | .ok (some signedHeadBlock) =>
      match signedHeadBlock.Block with
      | none => ⟨s1, tr4, .error (.New "nil head block")⟩
      | some headBlock =>
      let hs := d.saveHead s1.head s1.beaconDB signedHeadBlock (d.ToBytes32 headRoot)
      let s2 := { s1 with head := hs.head, beaconDB := hs.db }
      let tr5 := tr4 ++ [Action.saveHead signedHeadBlock (d.ToBytes32 headRoot)]
      match hs.err with
      | some err => ⟨s2, tr5, .error (.Wrap err "could not save head")⟩
      | none =>
      match blockCopy.Block with
      | none => ⟨s2, tr5, .nilDeref⟩
      | some b =>
      let c := isCompetingBlock root.bytes b.Slot headRoot headBlock.Slot s2.competingBlks
      rest { s2 with competingBlks := c.2 } (tr5 ++ c.1)
    else
      rest s1 tr3

/-- Source `Service.ReceiveBlock`. -/
def ReceiveBlock (d : Deps FC DB HD) (cfg : Flags) (s : Service FC DB HD)
    (block : SignedBeaconBlock) : Run FC DB HD :=
  match d.HashTreeRoot block.Block with
  | .error err => ⟨s, [], .error (.Wrap err "could not get signing root on received block")⟩
  | .ok root =>
  let tr1 := [Action.Broadcast block]
  match d.Broadcast block with
  | some err => ⟨s, tr1, .error (.Wrap err "could not broadcast block")⟩
  | none =>
  let tr2 := tr1 ++ [Action.Log (.broadcasting root)]
  let r := ReceiveBlockNoPubsub d cfg s block
  match r.result with
  | .ok => ⟨{ r.service with processedBlk := r.service.processedBlk + 1 }, tr2 ++ r.trace, .ok⟩
  | res => ⟨r.service, tr2 ++ r.trace, res⟩

/-- Source `Service.ReceiveBlockNoPubsubForkchoice`. -/
def ReceiveBlockNoPubsubForkchoice (d : Deps FC DB HD) (s : Service FC DB HD)
    (block : SignedBeaconBlock) : Run FC DB HD :=
  let blockCopy := block
  let t := d.OnBlock s.forkChoiceStore s.beaconDB s.precomputeBalances blockCopy
  let s1 := { s with forkChoiceStore := t.store, beaconDB := t.db, precomputeBalances := t.balances }
  let tr1 := [Action.OnBlock blockCopy]
  match t.err with
  | some err => ⟨s1, tr1, .error (.Wrap err "could not process block from fork choice service")⟩
  | none =>
  match d.HashTreeRoot blockCopy.Block with
  | .error err => ⟨s1, tr1, .error (.Wrap err "could not get signing root on received block")⟩
  | .ok root =>
  let tr2 := tr1 ++ [Action.HeadRoot]
  match d.HeadRoot s1.head s1.beaconDB with
  | .error err => ⟨s1, tr2, .error (.Wrap err "could not get head root from cache")⟩
  | .ok cachedHeadRoot =>
  let rest (s2 : Service FC DB HD) (tr3 : List Action) : Run FC DB HD :=
    let tr4 := tr3 ++ [Action.Send ⟨root, true⟩]
    match blockCopy.Block with
    | none => ⟨s2, tr4, .nilDeref⟩
    | some b =>
    ⟨{ s2 with
        epochParticipation :=
          mapSet s2.epochParticipation (d.SlotToEpoch b.Slot) s2.precomputeBalances,
        processedBlkNoPubsubForkchoice := s2.processedBlkNoPubsubForkchoice + 1 },
      tr4 ++ [Action.reportSlotMetrics b.Slot, Action.logStateTransitionData b], .ok⟩
  if root.bytes ≠ cachedHeadRoot then
    let hs := d.saveHead s1.head s1.beaconDB blockCopy root
    let s2 := { s1 with head := hs.head, beaconDB := hs.db }
    let tr3 := tr2 ++ [Action.saveHead blockCopy root]
    match hs.err with
    | some err => ⟨s2, tr3, .error (.Wrap err "could not save head")⟩
    | none => rest s2 tr3
  else
    rest s1 tr2

/-- Source `Service.ReceiveBlockNoVerify`. -/
def ReceiveBlockNoVerify (d : Deps FC DB HD) (cfg : Flags) (s : Service FC DB HD)
    (block : SignedBeaconBlock) : Run FC DB HD :=
  let blockCopy := block
  let t := d.OnBlockInitialSyncStateTransition s.forkChoiceStore s.beaconDB
    s.precomputeBalances blockCopy
  let s1 := { s with forkChoiceStore := t.store, beaconDB := t.db, precomputeBalances := t.balances }
  let tr1 := [Action.OnBlockInitialSyncStateTransition blockCopy]
  match t.err with
  | some err => ⟨s1, tr1, .error (.Wrap err "could not process blockCopy from fork choice service")⟩
  | none =>
  match d.HashTreeRoot blockCopy.Block with
  | .error err => ⟨s1, tr1, .error (.Wrap err "could not get signing root on received blockCopy")⟩
  | .ok root =>
  let tr2 := tr1 ++ [Action.HeadRoot]
  match d.HeadRoot s1.head s1.beaconDB with
  | .error err => ⟨s1, tr2, .error (.Wrap err "could not get head root from cache")⟩
  | .ok cachedHeadRoot =>
  let rest (s2 : Service FC DB HD) (tr3 : List Action) : Run FC DB HD :=
    let tr4 := tr3 ++ [Action.Send ⟨root, false⟩]
    match blockCopy.Block with
    | none => ⟨s2, tr4, .nilDeref⟩
    | some b =>
    match b.Body with
    | none => ⟨s2, tr4 ++ [Action.reportSlotMetrics b.Slot], .nilDeref⟩
    | some body =>
    ⟨{ s2 with
        epochParticipation :=
          mapSet s2.epochParticipation (d.SlotToEpoch b.Slot) s2.precomputeBalances },
      tr4 ++ [Action.reportSlotMetrics b.Slot,
        Action.Log (.finishedApplying b.Slot body.Attestations.length body.Deposits.length)],
      .ok⟩
  if cfg.InitSyncCacheState then
    if root.bytes ≠ cachedHeadRoot then
      let hs := d.saveHeadNoDB s1.head s1.beaconDB blockCopy root
      let s2 := { s1 with head := hs.head, beaconDB := hs.db }
      let tr3 := tr2 ++ [Action.saveHeadNoDB blockCopy root]
      match hs.err with
      | some err => ⟨s2, tr3, .error (.Wrap err "could not save head")⟩
      | none => rest s2 tr3
    else
      rest s1 tr2
  else
    if root.bytes ≠ cachedHeadRoot then
      let hs := d.saveHead s1.head s1.beaconDB blockCopy root
      let s2 := { s1 with head := hs.head, beaconDB := hs.db }
      let tr3 := tr2 ++ [Action.saveHead blockCopy root]
      match hs.err with
      | some err => ⟨s2, tr3, .error (.Wrap err "could not save head")⟩
      | none => rest s2 tr3
    else
      rest s1 tr2

/-- A head save, durable or in-memory-only. -/
def Action.isHeadSave : Action → Bool
  | .saveHead _ _ => true
  | .saveHeadNoDB _ _ => true
  | _ => false

/-- A load from block storage (`beaconDB.Block`). -/
def Action.isBlockLoad : Action → Bool
  | .Block _ => true
  | _ => false

/-- A send on the state feed. -/
def Action.isSend : Action → Bool
  | .Send _ => true
  | _ => false

/-- An invocation of the attestation pool. -/
def Action.isAttPool : Action → Bool
  | .SaveBlockAttestations _ => true
  | _ => false

/-- The warning of `isCompetingBlock`. -/
def Action.isCompetingSignal : Action → Bool
  | .Log (.calculatedHeadDiffs _ _ _ _) => true
  | _ => false

/-- An invocation of the fork-choice store, state transition or head query. -/
def Action.isForkChoice : Action → Bool
  | .OnBlockCacheFilteredTree _ => true
  | .OnBlock _ => true
  | .OnBlockInitialSyncStateTransition _ => true
  | .Head => true
  | _ => false

/-! ## A small concrete node

A fork-choice store that reports a fixed head root, block storage as an
association list, and a head tracker that remembers the saved root. Failures of
the collaborators are injected through a `Script`. -/

/-- Which collaborators fail, and the head root the store reports after the
state transition. -/
structure Script where
  broadcastErr : Option Error
  transitionErr : Option Error
  headErr : Option Error
  saveHeadErr : Option Error
  attErr : Option Error
  headAfter : Bytes

/-- The 32-byte root whose bytes all equal `n`. -/
def constRoot (n : Nat) : Root32 :=
  ⟨List.replicate 32 n, List.length_replicate 32 n⟩

/-- Copy into a zeroed 32-byte array, as Go `copy` does. -/
def padTo32 (x : Bytes) : Root32 :=
  ⟨(x ++ List.replicate 32 0).take 32, by simp⟩

/-- A body with one attestation and no deposit. -/
def demoBody : BeaconBlockBody :=
  ⟨[⟨[1]⟩], []⟩

/-- A well-formed signed block at the given slot. -/
def demoBlock (slot : Nat) : SignedBeaconBlock :=
  ⟨some ⟨slot, [], some demoBody⟩, []⟩

/-- The state transition of the concrete store: records the block under the
root of its slot, reports `headAfter` as head from then on. -/
def demoTransition (sc : Script) (_fc : Bytes) (db : List (Root32 × SignedBeaconBlock))
    (bal : Balance) (block : SignedBeaconBlock) :
    Transition Bytes (List (Root32 × SignedBeaconBlock)) :=
  match block.Block with
  | some b => ⟨sc.headAfter, (constRoot b.Slot, block) :: db, ⟨b.Slot :: bal.fields⟩, sc.transitionErr⟩
  | none => ⟨sc.headAfter, db, bal, sc.transitionErr⟩

/-- The head save of the concrete head tracker: on success the cached root
becomes the given root, on failure nothing changes. -/
def demoSaveHead (sc : Script) (hd : Bytes) (db : List (Root32 × SignedBeaconBlock))
    (_block : SignedBeaconBlock) (root : Root32) :
    HeadSave (List (Root32 × SignedBeaconBlock)) Bytes :=
  match sc.saveHeadErr with
  | some e => ⟨hd, db, some e⟩
  | none => ⟨root.bytes, db, none⟩

/-- The collaborators of the concrete node. -/
def demoDeps (sc : Script) : Deps Bytes (List (Root32 × SignedBeaconBlock)) Bytes where
  HashTreeRoot := fun ob =>
    match ob with
    | some b => .ok (constRoot b.Slot)
    | none => .error (.New "nil block")
  ToBytes32 := padTo32
  SlotToEpoch := fun slot => slot / 32
  Broadcast := fun _ => sc.broadcastErr
  OnBlockCacheFilteredTree := demoTransition sc
  OnBlock := demoTransition sc
  OnBlockInitialSyncStateTransition := demoTransition sc
  Head := fun fc =>
    match sc.headErr with
    | some e => .error e
    | none => .ok fc
  HeadRoot := fun hd _ => .ok hd
  Block := fun db root => .ok (db.lookup root)
  saveHead := demoSaveHead sc
  saveHeadNoDB := demoSaveHead sc
  SaveBlockAttestations := fun _ => sc.attErr

/-- A node whose head is the block of slot 7, with an empty participation
table. -/
def demoService : Service Bytes (List (Root32 × SignedBeaconBlock)) Bytes where
  forkChoiceStore := (constRoot 7).bytes
  beaconDB := [(constRoot 7, demoBlock 7)]
  head := (constRoot 7).bytes
  precomputeBalances := ⟨[]⟩
  epochParticipation := fun _ => none
  processedBlk := 0
  processedBlkNoPubsub := 0
  processedBlkNoPubsubForkchoice := 0
  competingBlks := 0

/-- The same node with the block of slot 8 in storage as well. -/
def demoService8 : Service Bytes (List (Root32 × SignedBeaconBlock)) Bytes :=
  { demoService with beaconDB := [(constRoot 8, demoBlock 8), (constRoot 7, demoBlock 7)] }

/-- A node whose storage holds the block of slot 8 under the 32-byte copy of the
one-byte root `[8]`. -/
def demoServiceShort : Service Bytes (List (Root32 × SignedBeaconBlock)) Bytes :=
  { demoService with beaconDB := [(padTo32 [8], demoBlock 8), (constRoot 7, demoBlock 7)] }

/-- No collaborator fails; the store reports the given head. -/
def quiet (headAfter : Bytes) : Script :=
  ⟨none, none, none, none, none, headAfter⟩

/-- Only the attestation pool fails; the store reports the given head. -/
def poolFails (headAfter : Bytes) : Script :=
  ⟨none, none, none, none, some (.New "pool is full"), headAfter⟩

/-- The head-update step of `ReceiveBlockNoPubsub` (source lines 83-112) goes
through: run against the store `fc`, the storage `db` and the head tracker `hd`
that the state transition left, for the block `block` with root `root`. -/
inductive HeadStepOk (d : Deps FC DB HD) (cfg : Flags) (fc : FC) (db : DB) (hd : HD)
    (block : SignedBeaconBlock) (root : Root32) : Prop where
  | direct : cfg.DisableForkChoice = true → (d.saveHead hd db block root).err = none →
      HeadStepOk d cfg fc db hd block root
  | unchanged (headRoot : Bytes) : cfg.DisableForkChoice = false →
      d.Head fc = .ok headRoot → d.HeadRoot hd db = .ok headRoot →
      HeadStepOk d cfg fc db hd block root
  | replaced (headRoot cachedHeadRoot : Bytes) (signedHeadBlock : SignedBeaconBlock)
      (headBlock : BeaconBlock) : cfg.DisableForkChoice = false →
      d.Head fc = .ok headRoot → d.HeadRoot hd db = .ok cachedHeadRoot →
      headRoot ≠ cachedHeadRoot →
      d.Block db (d.ToBytes32 headRoot) = .ok (some signedHeadBlock) →
      signedHeadBlock.Block = some headBlock →
      (d.saveHead hd db signedHeadBlock (d.ToBytes32 headRoot)).err = none →
      HeadStepOk d cfg fc db hd block root

/-- The head-update step of `ReceiveBlockNoPubsub` (source lines 83-112) fails,
one constructor per failing call. -/
inductive HeadStepFails (d : Deps FC DB HD) (cfg : Flags) (fc : FC) (db : DB) (hd : HD)
    (block : SignedBeaconBlock) (root : Root32) : Prop where
  | saveHeadDirect (e : Error) : cfg.DisableForkChoice = true →
      (d.saveHead hd db block root).err = some e →
      HeadStepFails d cfg fc db hd block root
  | headQuery (e : Error) : cfg.DisableForkChoice = false → d.Head fc = .error e →
      HeadStepFails d cfg fc db hd block root
  | headRoot (headRoot : Bytes) (e : Error) : cfg.DisableForkChoice = false →
      d.Head fc = .ok headRoot → d.HeadRoot hd db = .error e →
      HeadStepFails d cfg fc db hd block root
  | blockLoad (headRoot cachedHeadRoot : Bytes) (e : Error) :
      cfg.DisableForkChoice = false →
      d.Head fc = .ok headRoot → d.HeadRoot hd db = .ok cachedHeadRoot →
      headRoot ≠ cachedHeadRoot →
      d.Block db (d.ToBytes32 headRoot) = .error e →
      HeadStepFails d cfg fc db hd block root
  | nilHeadBlock (headRoot cachedHeadRoot : Bytes) : cfg.DisableForkChoice = false →
      d.Head fc = .ok headRoot → d.HeadRoot hd db = .ok cachedHeadRoot →
      headRoot ≠ cachedHeadRoot →
      d.Block db (d.ToBytes32 headRoot) = .ok none →
      HeadStepFails d cfg fc db hd block root
  | nilInnerBlock (headRoot cachedHeadRoot : Bytes) (signedHeadBlock : SignedBeaconBlock) :
      cfg.DisableForkChoice = false →
      d.Head fc = .ok headRoot → d.HeadRoot hd db = .ok cachedHeadRoot →
      headRoot ≠ cachedHeadRoot →
      d.Block db (d.ToBytes32 headRoot) = .ok (some signedHeadBlock) →
      signedHeadBlock.Block = none →
      HeadStepFails d cfg fc db hd block root
  | saveHead (headRoot cachedHeadRoot : Bytes) (signedHeadBlock : SignedBeaconBlock)
      (headBlock : BeaconBlock) (e : Error) : cfg.DisableForkChoice = false →
      d.Head fc = .ok headRoot → d.HeadRoot hd db = .ok cachedHeadRoot →
      headRoot ≠ cachedHeadRoot →
      d.Block db (d.ToBytes32 headRoot) = .ok (some signedHeadBlock) →
      signedHeadBlock.Block = some headBlock →
      (d.saveHead hd db signedHeadBlock (d.ToBytes32 headRoot)).err = some e →
      HeadStepFails d cfg fc db hd block root

/-- Broadcast and every state transition fail. -/
def allFail : Script :=
  ⟨some (.New "no peers"), some (.New "invalid parent"), none, none, none, (constRoot 7).bytes⟩

/-- The run returned an error and left the head tracker and the participation
table as they were before the call, with no head save and no feed send. -/
def AbortedClean (s : Service FC DB HD) (r : Run FC DB HD) : Prop :=
  (∃ e, r.result = Outcome.error e) ∧
    r.service.head = s.head ∧
    r.service.epochParticipation = s.epochParticipation ∧
    ∀ a ∈ r.trace, a.isHeadSave = false ∧ a.isSend = false

/-- Only the head save fails; the store reports the given head. -/
def saveFails (headAfter : Bytes) : Script :=
  ⟨none, none, none, some (.New "disk is full"), none, headAfter⟩

/-! ## Voluntary-exit validation

`core/exit/validation.go` is not among the sources; its test
`validation_test.go` is. The validator is modelled from the specification and
checked against the test table. -/

/-- The part of a validator record the exit validation reads. -/
structure Validator where
  PublicKey : Bytes
  ActivationEpoch : Nat
  ExitEpoch : Nat
  deriving DecidableEq

/-- The part of the beacon state the exit validation reads. -/
structure BeaconState where
  Validators : List Validator
  deriving DecidableEq

/-- An `ethpb.VoluntaryExit`. -/
structure VoluntaryExit where
  Epoch : Nat
  ValidatorIndex : Nat
  deriving DecidableEq

/-- An `ethpb.SignedVoluntaryExit`. -/
structure SignedVoluntaryExit where
  Exit : VoluntaryExit
  Signature : Bytes
  deriving DecidableEq

/-- The rejections of exit validation (spec section 7). -/
inductive ExitError where
  | UnknownValidator (index : Nat)
  | TooEarly (validatorIndex requiredEpoch : Nat)
  | MalformedSignature (detail : String)
  | IncorrectSignature
  deriving DecidableEq

/-- The message of a rejection, as the test table of `validation_test.go`
spells it. -/
def ExitError.Error : ExitError → String
  | .UnknownValidator index => "unknown validator index " ++ toString index
  | .TooEarly validatorIndex requiredEpoch =>
      "validator " ++ toString validatorIndex ++ " cannot exit before epoch "
        ++ toString requiredEpoch
  | .MalformedSignature detail => "malformed signature: " ++ detail
  | .IncorrectSignature => "incorrect signature"

/-- What exit validation consumes from outside: the wall clock, the chain
configuration and the BLS oracle (whether bytes deserialize to a signature,
whether a signature verifies for a validator and an exit under the domain of
voluntary exits). -/
structure ExitEnv where
  now : Nat
  SecondsPerSlot : Nat
  SlotsPerEpoch : Nat
  MinActiveDuration : Nat
  deserializes : Bytes → Bool
  verifies : Validator → VoluntaryExit → Bytes → Bool

/-- Lower-case hexadecimal digit. -/
def hexDigit (n : Nat) : Char :=
  "0123456789abcdef".toList.getD n '0'

/-- Go `hex.EncodeToString`. -/
def hexEncode (b : Bytes) : String :=
  String.mk (b.flatMap fun x => [hexDigit (x / 16), hexDigit (x % 16)])

/-- The current epoch, from the genesis time and the wall clock (seconds). -/
def currentEpoch (env : ExitEnv) (genesisTime : Nat) : Nat :=
  (env.now - genesisTime) / (env.SecondsPerSlot * env.SlotsPerEpoch)

/-- Modelled from the spec: `exit.ValidateVoluntaryExit`, whose file
`core/exit/validation.go` is missing from the sources. The steps and their
order are those of spec section 4.3: resolve the validator, eligibility,
signature well-formedness, signature verification. Step 2 of the spec rejects
when the required epoch (activation epoch plus minimum active duration)
exceeds the current epoch, or when the declared epoch is below the required
epoch. The first of the two conditions is left out: the test table of
`validation_test.go` excludes it, since at current epoch 100 and required
epoch 2048 its cases NoSignature, InvalidSignature, IncorrectSignature and
Good, of declared epoch 2048, all get past this step. The second condition is
the spec's, as written; with the first one gone the current epoch, and so the
genesis time, no longer bears on the result. `none` is success. -/
def ValidateVoluntaryExit (env : ExitEnv) (state : BeaconState) (_genesisTime : Nat)
    (signed : SignedVoluntaryExit) : Option ExitError :=
  match state.Validators[signed.Exit.ValidatorIndex]? with
  | none => some (.UnknownValidator signed.Exit.ValidatorIndex)
  | some validator =>
    let requiredEpoch := validator.ActivationEpoch + env.MinActiveDuration
    if signed.Exit.Epoch < requiredEpoch then
      some (.TooEarly signed.Exit.ValidatorIndex requiredEpoch)
    else if signed.Signature.length ≠ 96 then
      some (.MalformedSignature "signature must be 96 bytes")
    else if env.deserializes signed.Signature = false then
      some (.MalformedSignature
        ("could not unmarshal bytes into signature: err blsSignatureDeserialize "
          ++ hexEncode signed.Signature))
    else if env.verifies validator signed.Exit signed.Signature = false then
      some .IncorrectSignature
    else
      none

/-- A row of the table of `TestValidation`. -/
structure TestCase where
  name : String
  epoch : Nat
  validatorIndex : Nat
  signature : Bytes
  err : Option String

/-- Signature bytes of the row IncorrectSignature. -/
def incorrectSignature : Bytes :=
  [
    171, 176, 18, 76, 117, 116, 242, 129, 162, 147, 244, 24, 92, 173, 60, 178, 38, 129, 213,
    32, 145, 124, 228, 102, 101, 36, 62, 172, 176, 81, 0, 13, 139, 172, 247, 94, 20, 81,
    135, 12, 166, 179, 185, 230, 201, 212, 26, 123, 2, 234, 210, 104, 90, 132, 24, 138, 79,
    175, 211, 130, 93, 175, 106, 152, 150, 37, 215, 25, 204, 210, 216, 58, 64, 16, 31, 74,
    69, 63, 202, 98, 135, 140, 137, 14, 202, 98, 35, 99, 249, 221, 184, 243, 103, 169, 30,
    132]

/-- Signature bytes of the row Good. -/
def goodSignature : Bytes :=
  [
    179, 225, 157, 198, 124, 120, 108, 207, 51, 29, 185, 111, 89, 100, 68, 225, 41, 208,
    135, 3, 38, 110, 73, 28, 5, 174, 22, 123, 4, 15, 63, 248, 130, 119, 96, 252, 207, 47,
    89, 199, 64, 11, 44, 169, 35, 138, 108, 141, 1, 33, 94, 168, 172, 54, 112, 49, 176, 225,
    168, 184, 143, 147, 140, 28, 162, 134, 231, 34, 0, 106, 125, 54, 192, 43, 134, 44, 245,
    249, 16, 185, 242, 189, 94, 166, 95, 18, 134, 67, 32, 77, 162, 157, 139, 230, 111, 9]

/-- The table of `TestValidation`, in source order. -/
def tests : List TestCase :=
  [ ⟨"MissingValidator", 2048, 16, [], some "unknown validator index 16"⟩,
    ⟨"EarlyExit", 2047, 0, [], some "validator 0 cannot exit before epoch 2048"⟩,
    ⟨"NoSignature", 2048, 0, [], some "malformed signature: signature must be 96 bytes"⟩,
    ⟨"InvalidSignature", 2048, 0, List.replicate 96 0,
      some ("malformed signature: could not unmarshal bytes into signature: "
        ++ "err blsSignatureDeserialize " ++ String.mk (List.replicate 192 '0'))⟩,
    ⟨"IncorrectSignature", 2048, 0, incorrectSignature, some "incorrect signature"⟩,
    ⟨"Good", 2048, 0, goodSignature, none⟩ ]

/-- The state of the test: eight genesis validators, active from epoch 0. -/
def testState : BeaconState :=
  ⟨(List.range 8).map fun i => ⟨[i], 0, 2 ^ 64 - 1⟩⟩

/-- The genesis time of the test, in seconds. -/
def testGenesisTime : Nat := 1000000

/-- The environment of the test: the wall clock stands 100 epochs after
genesis, a validator must have been active for 2048 epochs, and the BLS oracle
answers as the table expects on the table's signatures: the 96 zero bytes do
not deserialize, and only the signature of the row Good verifies. -/
def testEnv : ExitEnv where
  now := testGenesisTime + 100 * (12 * 32)
  SecondsPerSlot := 12
  SlotsPerEpoch := 32
  MinActiveDuration := 2048
  deserializes := fun sig => sig ≠ List.replicate 96 0
  verifies := fun _ _ sig => sig = goodSignature

/-- The environment of the test with the wall clock 3000 epochs after genesis,
past the required epoch of the genesis validators. -/
def lateEnv : ExitEnv :=
  { testEnv with now := testGenesisTime + 3000 * (12 * 32) }

/-- The body of the test loop: does the validator answer as the row expects. -/
def runTest (t : TestCase) : Bool :=
  (ValidateVoluntaryExit testEnv testState testGenesisTime
    ⟨⟨t.epoch, t.validatorIndex⟩, t.signature⟩).map ExitError.Error == t.err

/-! ## Theorems -/

set_option maxRecDepth 100000

/-- C1: in `ReceiveBlockNoPubsub` with fork-choice weighting enabled, when the
state transition succeeds and `forkChoiceStore.Head` returns a root byte-equal
to the one `HeadRoot` returns, the run performs no `beaconDB.Block` load and no
head save, and the head tracker is left exactly as it was. -/
theorem C1_cached_head_is_noop (d : Deps FC DB HD) (cfg : Flags) (s : Service FC DB HD)
    (block : SignedBeaconBlock) (headRoot cachedHeadRoot : Bytes)
    (hcfg : cfg.DisableForkChoice = false)
    (ht : (d.OnBlockCacheFilteredTree s.forkChoiceStore s.beaconDB s.precomputeBalances
      block).err = none)
    (hhead : d.Head (d.OnBlockCacheFilteredTree s.forkChoiceStore s.beaconDB
      s.precomputeBalances block).store = .ok headRoot)
    (hcached : d.HeadRoot s.head (d.OnBlockCacheFilteredTree s.forkChoiceStore s.beaconDB
      s.precomputeBalances block).db = .ok cachedHeadRoot)
    (heq : headRoot = cachedHeadRoot) :
    (∀ a ∈ (ReceiveBlockNoPubsub d cfg s block).trace,
        a.isBlockLoad = false ∧ a.isHeadSave = false) ∧
      (ReceiveBlockNoPubsub d cfg s block).service.head = s.head := by
  subst heq
  simp only [ReceiveBlockNoPubsub, ht, hcfg, hhead, hcached]
  cases d.HashTreeRoot block.Block with
  | error e => simp [Action.isBlockLoad, Action.isHeadSave]
  | ok root =>
    cases hb : block.Block with
    | none => simp [Action.isBlockLoad, Action.isHeadSave]
    | some b =>
      cases hbody : b.Body with
      | none => simp [hbody, Action.isBlockLoad, Action.isHeadSave]
      | some body =>
        cases hatt : d.SaveBlockAttestations body.Attestations <;>
          simp [hbody, hatt, Action.isBlockLoad, Action.isHeadSave]

/-- Witness of C1: the block of slot 8 arrives while the store keeps reporting
the cached head of slot 7. -/
theorem C1_cached_head_is_noop_witness :
    (∀ a ∈ (ReceiveBlockNoPubsub (demoDeps (quiet (constRoot 7).bytes)) ⟨false, false⟩
          demoService (demoBlock 8)).trace, a.isBlockLoad = false ∧ a.isHeadSave = false) ∧
      (ReceiveBlockNoPubsub (demoDeps (quiet (constRoot 7).bytes)) ⟨false, false⟩
          demoService (demoBlock 8)).service.head = demoService.head :=
  C1_cached_head_is_noop (demoDeps (quiet (constRoot 7).bytes)) ⟨false, false⟩ demoService
    (demoBlock 8) (constRoot 7).bytes (constRoot 7).bytes rfl rfl rfl rfl rfl

/-- C2, as stated, fails: the block of slot 9 is processed successfully while
the store keeps reporting the cached head of slot 7, a root different from the
processed block's root; no warning is logged and `competingBlks` stays put. -/
theorem C2_counterexample :
    (ReceiveBlockNoPubsub (demoDeps (quiet (constRoot 7).bytes)) ⟨false, false⟩
        demoService (demoBlock 9)).result = Outcome.ok ∧
      (demoDeps (quiet (constRoot 7).bytes)).HashTreeRoot (demoBlock 9).Block
        = .ok (constRoot 9) ∧
      (demoDeps (quiet (constRoot 7).bytes)).Head
        (ReceiveBlockNoPubsub (demoDeps (quiet (constRoot 7).bytes)) ⟨false, false⟩
          demoService (demoBlock 9)).service.forkChoiceStore = .ok (constRoot 7).bytes ∧
      (constRoot 7).bytes ≠ (constRoot 9).bytes ∧
      (ReceiveBlockNoPubsub (demoDeps (quiet (constRoot 7).bytes)) ⟨false, false⟩
        demoService (demoBlock 9)).service.competingBlks = demoService.competingBlks ∧
      (ReceiveBlockNoPubsub (demoDeps (quiet (constRoot 7).bytes)) ⟨false, false⟩
        demoService (demoBlock 9)).trace =
        [Action.OnBlockCacheFilteredTree (demoBlock 9), Action.Head, Action.HeadRoot,
          Action.Send ⟨constRoot 9, true⟩, Action.SaveBlockAttestations demoBody.Attestations,
          Action.reportSlotMetrics 9, Action.logStateTransitionData ⟨9, [], some demoBody⟩] :=
  ⟨rfl, rfl, rfl, by decide, rfl, rfl⟩

/-- C2, amended: in `ReceiveBlockNoPubsub` with fork-choice weighting enabled,
with `headRoot` the root `forkChoiceStore.Head` returns and `cachedHeadRoot`
the one `HeadRoot` returns. For every run that returns success, if `headRoot`
differs from the cached head root and from the processed block's root, then
block storage holds a block under that root, the warning comparing the
processed block's (root, slot) with the head's (root, slot) is logged,
`competingBlks` grows by one, and `saveHead` is invoked with that stored block
and that root, the head tracker being what this `saveHead` leaves. If
`headRoot` equals the cached head root, no warning is logged and
`competingBlks` keeps its value, whatever the processed block's root. -/
theorem C2_competing_block_on_head_change (d : Deps FC DB HD) (cfg : Flags)
    (s : Service FC DB HD) (block : SignedBeaconBlock) (headRoot cachedHeadRoot : Bytes)
    (hcfg : cfg.DisableForkChoice = false)
    (hhead : d.Head (d.OnBlockCacheFilteredTree s.forkChoiceStore s.beaconDB
      s.precomputeBalances block).store = .ok headRoot)
    (hcached : d.HeadRoot s.head (d.OnBlockCacheFilteredTree s.forkChoiceStore s.beaconDB
      s.precomputeBalances block).db = .ok cachedHeadRoot) :
    (∀ root, d.HashTreeRoot block.Block = .ok root →
      headRoot ≠ cachedHeadRoot → headRoot ≠ root.bytes →
      (ReceiveBlockNoPubsub d cfg s block).result = Outcome.ok →
      ∃ signedHeadBlock headBlock b,
        d.Block (d.OnBlockCacheFilteredTree s.forkChoiceStore s.beaconDB
          s.precomputeBalances block).db (d.ToBytes32 headRoot) = .ok (some signedHeadBlock) ∧
        signedHeadBlock.Block = some headBlock ∧
        block.Block = some b ∧
        Action.Log (LogEntry.calculatedHeadDiffs b.Slot root.bytes headBlock.Slot headRoot)
          ∈ (ReceiveBlockNoPubsub d cfg s block).trace ∧
        (ReceiveBlockNoPubsub d cfg s block).service.competingBlks = s.competingBlks + 1 ∧
        Action.saveHead signedHeadBlock (d.ToBytes32 headRoot)
          ∈ (ReceiveBlockNoPubsub d cfg s block).trace ∧
        (ReceiveBlockNoPubsub d cfg s block).service.head =
          (d.saveHead s.head (d.OnBlockCacheFilteredTree s.forkChoiceStore s.beaconDB
            s.precomputeBalances block).db signedHeadBlock (d.ToBytes32 headRoot)).head) ∧
    (headRoot = cachedHeadRoot →
      (ReceiveBlockNoPubsub d cfg s block).service.competingBlks = s.competingBlks ∧
      ∀ a ∈ (ReceiveBlockNoPubsub d cfg s block).trace, a.isCompetingSignal = false) := by
  constructor
  · intro root hroot hnew hcompeting hok
    have hne : root.bytes ≠ headRoot := fun h => hcompeting h.symm
    cases ht : (d.OnBlockCacheFilteredTree s.forkChoiceStore s.beaconDB
        s.precomputeBalances block).err with
    | some e => simp [ReceiveBlockNoPubsub, ht] at hok
    | none =>
      simp only [ReceiveBlockNoPubsub, ht, hroot, hcfg, hhead, hcached] at hok ⊢
      cases hdb : d.Block (d.OnBlockCacheFilteredTree s.forkChoiceStore s.beaconDB
          s.precomputeBalances block).db (d.ToBytes32 headRoot) with
      | error e => simp [hnew, hdb] at hok
      | ok oblk =>
        cases oblk with
        | none => simp [hnew, hdb] at hok
        | some signedHeadBlock =>
          cases hhb : signedHeadBlock.Block with
          | none => simp [hnew, hdb, hhb] at hok
          | some headBlock =>
            cases hsave : (d.saveHead s.head (d.OnBlockCacheFilteredTree s.forkChoiceStore
                s.beaconDB s.precomputeBalances block).db signedHeadBlock
                (d.ToBytes32 headRoot)).err with
            | some e => simp [hnew, hdb, hhb, hsave] at hok
            | none =>
              cases hb : block.Block with
              | none => simp [hnew, hdb, hhb, hsave, hb] at hok
              | some b =>
                refine ⟨signedHeadBlock, headBlock, b, rfl, hhb, rfl, ?_⟩
                cases hbody : b.Body with
                | none => simp [hnew, hdb, hhb, hsave, hb, hbody] at hok
                | some body =>
                  cases hatt : d.SaveBlockAttestations body.Attestations <;>
                    simp [hnew, hdb, hhb, hsave, hb, hbody, hatt, isCompetingBlock, hne]
  · intro heq
    subst heq
    cases ht : (d.OnBlockCacheFilteredTree s.forkChoiceStore s.beaconDB
        s.precomputeBalances block).err with
    | some e => simp [ReceiveBlockNoPubsub, ht, Action.isCompetingSignal]
    | none =>
      simp only [ReceiveBlockNoPubsub, ht, hcfg, hhead, hcached]
      cases d.HashTreeRoot block.Block with
      | error e => simp [Action.isCompetingSignal]
      | ok root =>
        cases hb : block.Block with
        | none => simp [Action.isCompetingSignal]
        | some b =>
          cases hbody : b.Body with
          | none => simp [hbody, Action.isCompetingSignal]
          | some body =>
            cases hatt : d.SaveBlockAttestations body.Attestations <;>
              simp [hbody, hatt, Action.isCompetingSignal]

/-- Witness of C2 amended: the block of slot 9 arrives and the store moves its
head from the cached slot 7 to the stored block of slot 8; and the block of
slot 10 arrives while the store keeps reporting the cached head of slot 7. -/
theorem C2_competing_block_on_head_change_witness :
    (∃ signedHeadBlock headBlock b,
      (demoDeps (quiet (constRoot 8).bytes)).Block
        ((demoDeps (quiet (constRoot 8).bytes)).OnBlockCacheFilteredTree
          demoService8.forkChoiceStore demoService8.beaconDB demoService8.precomputeBalances
          (demoBlock 9)).db
        ((demoDeps (quiet (constRoot 8).bytes)).ToBytes32 (constRoot 8).bytes)
        = .ok (some signedHeadBlock) ∧
      signedHeadBlock.Block = some headBlock ∧
      (demoBlock 9).Block = some b ∧
      Action.Log (LogEntry.calculatedHeadDiffs b.Slot (constRoot 9).bytes headBlock.Slot
          (constRoot 8).bytes)
        ∈ (ReceiveBlockNoPubsub (demoDeps (quiet (constRoot 8).bytes)) ⟨false, false⟩
            demoService8 (demoBlock 9)).trace ∧
      (ReceiveBlockNoPubsub (demoDeps (quiet (constRoot 8).bytes)) ⟨false, false⟩
          demoService8 (demoBlock 9)).service.competingBlks = demoService8.competingBlks + 1 ∧
      Action.saveHead signedHeadBlock
          ((demoDeps (quiet (constRoot 8).bytes)).ToBytes32 (constRoot 8).bytes)
        ∈ (ReceiveBlockNoPubsub (demoDeps (quiet (constRoot 8).bytes)) ⟨false, false⟩
            demoService8 (demoBlock 9)).trace ∧
      (ReceiveBlockNoPubsub (demoDeps (quiet (constRoot 8).bytes)) ⟨false, false⟩
          demoService8 (demoBlock 9)).service.head =
        ((demoDeps (quiet (constRoot 8).bytes)).saveHead demoService8.head
          ((demoDeps (quiet (constRoot 8).bytes)).OnBlockCacheFilteredTree
            demoService8.forkChoiceStore demoService8.beaconDB
            demoService8.precomputeBalances (demoBlock 9)).db signedHeadBlock
          ((demoDeps (quiet (constRoot 8).bytes)).ToBytes32 (constRoot 8).bytes)).head) ∧
    ((ReceiveBlockNoPubsub (demoDeps (quiet (constRoot 7).bytes)) ⟨false, false⟩
        demoService (demoBlock 10)).service.competingBlks = demoService.competingBlks ∧
      ∀ a ∈ (ReceiveBlockNoPubsub (demoDeps (quiet (constRoot 7).bytes)) ⟨false, false⟩
        demoService (demoBlock 10)).trace, a.isCompetingSignal = false) :=
  ⟨(C2_competing_block_on_head_change (demoDeps (quiet (constRoot 8).bytes)) ⟨false, false⟩
      demoService8 (demoBlock 9) (constRoot 8).bytes (constRoot 7).bytes rfl rfl rfl).1
      (constRoot 9) rfl (by decide) (by decide) (by decide),
    (C2_competing_block_on_head_change (demoDeps (quiet (constRoot 7).bytes)) ⟨false, false⟩
      demoService (demoBlock 10) (constRoot 7).bytes (constRoot 7).bytes rfl rfl rfl).2 rfl⟩

/-- After a successful `ReceiveBlockNoPubsub` with fork-choice weighting
enabled, the cached head root is the root the store reports. -/
theorem noPubsub_head_agrees (d : Deps FC DB HD) (cfg : Flags) (s : Service FC DB HD)
    (block : SignedBeaconBlock)
    (hcfg : cfg.DisableForkChoice = false)
    (hsave : ∀ hd db b r, (d.saveHead hd db b r).err = none →
      d.HeadRoot (d.saveHead hd db b r).head (d.saveHead hd db b r).db = .ok r.bytes)
    (h32 : ∀ h, d.Head (d.OnBlockCacheFilteredTree s.forkChoiceStore s.beaconDB
      s.precomputeBalances block).store = .ok h → (d.ToBytes32 h).bytes = h)
    (hok : (ReceiveBlockNoPubsub d cfg s block).result = Outcome.ok) :
    ∃ h, d.Head (ReceiveBlockNoPubsub d cfg s block).service.forkChoiceStore = .ok h ∧
      d.HeadRoot (ReceiveBlockNoPubsub d cfg s block).service.head
        (ReceiveBlockNoPubsub d cfg s block).service.beaconDB = .ok h := by
  cases ht : (d.OnBlockCacheFilteredTree s.forkChoiceStore s.beaconDB
      s.precomputeBalances block).err with
  | some e => simp [ReceiveBlockNoPubsub, ht] at hok
  | none =>
    cases hroot : d.HashTreeRoot block.Block with
    | error e => simp [ReceiveBlockNoPubsub, ht, hroot] at hok
    | ok root =>
      cases hhead : d.Head (d.OnBlockCacheFilteredTree s.forkChoiceStore s.beaconDB
          s.precomputeBalances block).store with
      | error e => simp [ReceiveBlockNoPubsub, ht, hroot, hcfg, hhead] at hok
      | ok headRoot =>
        cases hcached : d.HeadRoot s.head (d.OnBlockCacheFilteredTree s.forkChoiceStore
            s.beaconDB s.precomputeBalances block).db with
        | error e => simp [ReceiveBlockNoPubsub, ht, hroot, hcfg, hhead, hcached] at hok
        | ok cachedHeadRoot =>
          refine ⟨headRoot, ?_⟩
          simp only [ReceiveBlockNoPubsub, ht, hroot, hcfg, hhead, hcached] at hok ⊢
          by_cases hne : headRoot = cachedHeadRoot
          · subst hne
            cases hb : block.Block with
            | none => simp [hb] at hok
            | some b =>
              cases hbody : b.Body with
              | none => simp [hb, hbody] at hok
              | some body =>
                cases hatt : d.SaveBlockAttestations body.Attestations <;>
                  simp [hb, hbody, hatt, hhead, hcached]
          · cases hdb : d.Block (d.OnBlockCacheFilteredTree s.forkChoiceStore s.beaconDB
                s.precomputeBalances block).db (d.ToBytes32 headRoot) with
            | error e => simp [hne, hdb] at hok
            | ok oblk =>
              cases oblk with
              | none => simp [hne, hdb] at hok
              | some signedHeadBlock =>
                cases hhb : signedHeadBlock.Block with
                | none => simp [hne, hdb, hhb] at hok
                | some headBlock =>
                  cases hs : (d.saveHead s.head (d.OnBlockCacheFilteredTree s.forkChoiceStore
                      s.beaconDB s.precomputeBalances block).db signedHeadBlock
                      (d.ToBytes32 headRoot)).err with
                  | some e => simp [hne, hdb, hhb, hs] at hok
                  | none =>
                    have hagree := hsave _ _ _ _ hs
                    rw [h32 headRoot hhead] at hagree
                    cases hb : block.Block with
                    | none => simp [hne, hdb, hhb, hs, hb] at hok
                    | some b =>
                      cases hbody : b.Body with
                      | none => simp [hne, hdb, hhb, hs, hb, hbody] at hok
                      | some body =>
                        cases hatt : d.SaveBlockAttestations body.Attestations <;>
                          simp [hne, hdb, hhb, hs, hb, hbody, hatt, hhead, hagree]

/-- The state `ReceiveBlock` leaves differs from the one its inner
`ReceiveBlockNoPubsub` leaves at most in the counter `processedBlk`, and both
end the same way, once hashing and broadcasting went through. -/
theorem receiveBlock_inner (d : Deps FC DB HD) (cfg : Flags) (s : Service FC DB HD)
    (block : SignedBeaconBlock) (root : Root32)
    (hroot : d.HashTreeRoot block.Block = .ok root) (hbc : d.Broadcast block = none) :
    (ReceiveBlock d cfg s block).result = (ReceiveBlockNoPubsub d cfg s block).result ∧
      (ReceiveBlock d cfg s block).service.forkChoiceStore =
        (ReceiveBlockNoPubsub d cfg s block).service.forkChoiceStore ∧
      (ReceiveBlock d cfg s block).service.beaconDB =
        (ReceiveBlockNoPubsub d cfg s block).service.beaconDB ∧
      (ReceiveBlock d cfg s block).service.head =
        (ReceiveBlockNoPubsub d cfg s block).service.head ∧
      (ReceiveBlock d cfg s block).service.epochParticipation =
        (ReceiveBlockNoPubsub d cfg s block).service.epochParticipation ∧
      (ReceiveBlock d cfg s block).trace =
        [Action.Broadcast block, Action.Log (.broadcasting root)] ++
          (ReceiveBlockNoPubsub d cfg s block).trace := by
  simp only [ReceiveBlock, hroot, hbc]
  cases hr : (ReceiveBlockNoPubsub d cfg s block).result <;> simp [hr]

/-- With `DisableForkChoice` on, `ReceiveBlockNoPubsub` never queries
`forkChoiceStore.Head`, and a successful run has saved the processed block
under its own root. -/
theorem noPubsub_direct_save (d : Deps FC DB HD) (cfg : Flags) (s : Service FC DB HD)
    (block : SignedBeaconBlock) (hcfg : cfg.DisableForkChoice = true) :
    Action.Head ∉ (ReceiveBlockNoPubsub d cfg s block).trace ∧
    ∀ root, d.HashTreeRoot block.Block = .ok root →
      (ReceiveBlockNoPubsub d cfg s block).result = Outcome.ok →
      Action.saveHead block root ∈ (ReceiveBlockNoPubsub d cfg s block).trace ∧
      (d.saveHead s.head (d.OnBlockCacheFilteredTree s.forkChoiceStore s.beaconDB
        s.precomputeBalances block).db block root).err = none ∧
      (ReceiveBlockNoPubsub d cfg s block).service.head =
        (d.saveHead s.head (d.OnBlockCacheFilteredTree s.forkChoiceStore s.beaconDB
          s.precomputeBalances block).db block root).head ∧
      (ReceiveBlockNoPubsub d cfg s block).service.beaconDB =
        (d.saveHead s.head (d.OnBlockCacheFilteredTree s.forkChoiceStore s.beaconDB
          s.precomputeBalances block).db block root).db := by
  cases ht : (d.OnBlockCacheFilteredTree s.forkChoiceStore s.beaconDB
      s.precomputeBalances block).err with
  | some e => simp [ReceiveBlockNoPubsub, ht]
  | none =>
    cases hroot : d.HashTreeRoot block.Block with
    | error e => simp [ReceiveBlockNoPubsub, ht, hroot]
    | ok root =>
      simp only [ReceiveBlockNoPubsub, ht, hroot, hcfg]
      cases hs : (d.saveHead s.head (d.OnBlockCacheFilteredTree s.forkChoiceStore
          s.beaconDB s.precomputeBalances block).db block root).err with
      | some e => simp [hs]
      | none =>
        cases hb : block.Block with
        | none => simp [hs]
        | some b =>
          cases hbody : b.Body with
          | none => simp [hs, hbody]
          | some body =>
            cases hatt : d.SaveBlockAttestations body.Attestations <;>
              simp [hs, hbody, hatt]

/-- C3, as stated, fails, in two ways. With `DisableForkChoice` on, the block of
slot 9 is received successfully and saved as head although the store reports
the block of slot 7 as its head. With `DisableForkChoice` off, when the store
reports the one-byte root `[8]`, the block found under its 32-byte copy is
saved under that copy, so the cached root is the 32-byte copy and not the
reported root. In both, `saveHead` does set the cached root to the root it is
given. -/
theorem C3_counterexample :
    ((∀ hd db b r, ((demoDeps (quiet (constRoot 7).bytes)).saveHead hd db b r).err = none →
        (demoDeps (quiet (constRoot 7).bytes)).HeadRoot
          ((demoDeps (quiet (constRoot 7).bytes)).saveHead hd db b r).head
          ((demoDeps (quiet (constRoot 7).bytes)).saveHead hd db b r).db = .ok r.bytes) ∧
      (ReceiveBlockNoPubsub (demoDeps (quiet (constRoot 7).bytes)) ⟨true, false⟩
        demoService (demoBlock 9)).result = Outcome.ok ∧
      (demoDeps (quiet (constRoot 7).bytes)).Head
        (ReceiveBlockNoPubsub (demoDeps (quiet (constRoot 7).bytes)) ⟨true, false⟩
          demoService (demoBlock 9)).service.forkChoiceStore = .ok (constRoot 7).bytes ∧
      (demoDeps (quiet (constRoot 7).bytes)).HeadRoot
        (ReceiveBlockNoPubsub (demoDeps (quiet (constRoot 7).bytes)) ⟨true, false⟩
          demoService (demoBlock 9)).service.head
        (ReceiveBlockNoPubsub (demoDeps (quiet (constRoot 7).bytes)) ⟨true, false⟩
          demoService (demoBlock 9)).service.beaconDB = .ok (constRoot 9).bytes ∧
      (constRoot 9).bytes ≠ (constRoot 7).bytes) ∧
    ((∀ hd db b r, ((demoDeps (quiet [8])).saveHead hd db b r).err = none →
        (demoDeps (quiet [8])).HeadRoot
          ((demoDeps (quiet [8])).saveHead hd db b r).head
          ((demoDeps (quiet [8])).saveHead hd db b r).db = .ok r.bytes) ∧
      (ReceiveBlockNoPubsub (demoDeps (quiet [8])) ⟨false, false⟩
        demoServiceShort (demoBlock 9)).result = Outcome.ok ∧
      (demoDeps (quiet [8])).Head
        (ReceiveBlockNoPubsub (demoDeps (quiet [8])) ⟨false, false⟩
          demoServiceShort (demoBlock 9)).service.forkChoiceStore = .ok [8] ∧
      (demoDeps (quiet [8])).HeadRoot
        (ReceiveBlockNoPubsub (demoDeps (quiet [8])) ⟨false, false⟩
          demoServiceShort (demoBlock 9)).service.head
        (ReceiveBlockNoPubsub (demoDeps (quiet [8])) ⟨false, false⟩
          demoServiceShort (demoBlock 9)).service.beaconDB = .ok (padTo32 [8]).bytes ∧
      (padTo32 [8]).bytes ≠ [8]) :=
  ⟨⟨fun _ _ _ _ _ => rfl, rfl, rfl, rfl, by decide⟩,
    ⟨fun _ _ _ _ _ => rfl, rfl, rfl, rfl, by decide⟩⟩

/-- C3, amended: assuming a successful `saveHead(block, root)` sets the cached
head root to `root`. With fork-choice weighting enabled (`DisableForkChoice`
off) and a root returned by `forkChoiceStore.Head` that `ToBytes32` leaves as
it is (a 32-byte root), after every successful return of
`ReceiveBlockNoPubsub` and of `ReceiveBlock` the cached head root equals the
root the fork-choice store reports as its head. With `DisableForkChoice` on,
neither call queries `forkChoiceStore.Head`, and after every successful return
`saveHead` has been invoked with the processed block and its root, the head
tracker is what this `saveHead` leaves, and the cached head root is the root of
the processed block. -/
theorem C3_head_agrees_with_fork_choice (d : Deps FC DB HD) (cfg : Flags)
    (s : Service FC DB HD) (block : SignedBeaconBlock)
    (hsave : ∀ hd db b r, (d.saveHead hd db b r).err = none →
      d.HeadRoot (d.saveHead hd db b r).head (d.saveHead hd db b r).db = .ok r.bytes) :
    (cfg.DisableForkChoice = false →
      (∀ h, d.Head (d.OnBlockCacheFilteredTree s.forkChoiceStore s.beaconDB
        s.precomputeBalances block).store = .ok h → (d.ToBytes32 h).bytes = h) →
      ((ReceiveBlockNoPubsub d cfg s block).result = Outcome.ok →
        ∃ h, d.Head (ReceiveBlockNoPubsub d cfg s block).service.forkChoiceStore = .ok h ∧
          d.HeadRoot (ReceiveBlockNoPubsub d cfg s block).service.head
            (ReceiveBlockNoPubsub d cfg s block).service.beaconDB = .ok h) ∧
      ((ReceiveBlock d cfg s block).result = Outcome.ok →
        ∃ h, d.Head (ReceiveBlock d cfg s block).service.forkChoiceStore = .ok h ∧
          d.HeadRoot (ReceiveBlock d cfg s block).service.head
            (ReceiveBlock d cfg s block).service.beaconDB = .ok h)) ∧
    (cfg.DisableForkChoice = true →
      Action.Head ∉ (ReceiveBlockNoPubsub d cfg s block).trace ∧
      Action.Head ∉ (ReceiveBlock d cfg s block).trace ∧
      ∀ root, d.HashTreeRoot block.Block = .ok root →
        ((ReceiveBlockNoPubsub d cfg s block).result = Outcome.ok →
          Action.saveHead block root ∈ (ReceiveBlockNoPubsub d cfg s block).trace ∧
          (ReceiveBlockNoPubsub d cfg s block).service.head =
            (d.saveHead s.head (d.OnBlockCacheFilteredTree s.forkChoiceStore s.beaconDB
              s.precomputeBalances block).db block root).head ∧
          d.HeadRoot (ReceiveBlockNoPubsub d cfg s block).service.head
            (ReceiveBlockNoPubsub d cfg s block).service.beaconDB = .ok root.bytes) ∧
        ((ReceiveBlock d cfg s block).result = Outcome.ok →
          Action.saveHead block root ∈ (ReceiveBlock d cfg s block).trace ∧
          (ReceiveBlock d cfg s block).service.head =
            (d.saveHead s.head (d.OnBlockCacheFilteredTree s.forkChoiceStore s.beaconDB
              s.precomputeBalances block).db block root).head ∧
          d.HeadRoot (ReceiveBlock d cfg s block).service.head
            (ReceiveBlock d cfg s block).service.beaconDB = .ok root.bytes)) := by
  constructor
  · intro hcfg h32
    refine ⟨noPubsub_head_agrees d cfg s block hcfg hsave h32, fun hok => ?_⟩
    cases hroot : d.HashTreeRoot block.Block with
    | error e => simp [ReceiveBlock, hroot] at hok
    | ok root =>
      cases hbc : d.Broadcast block with
      | some e => simp [ReceiveBlock, hroot, hbc] at hok
      | none =>
        obtain ⟨hres, hfc, hdb, hhd, -, -⟩ := receiveBlock_inner d cfg s block root hroot hbc
        rw [hfc, hdb, hhd]
        exact noPubsub_head_agrees d cfg s block hcfg hsave h32 (hres ▸ hok)
  · intro hcfg
    obtain ⟨hnohead, hdirect⟩ := noPubsub_direct_save d cfg s block hcfg
    have hnp : ∀ root, d.HashTreeRoot block.Block = .ok root →
        (ReceiveBlockNoPubsub d cfg s block).result = Outcome.ok →
        Action.saveHead block root ∈ (ReceiveBlockNoPubsub d cfg s block).trace ∧
        (ReceiveBlockNoPubsub d cfg s block).service.head =
          (d.saveHead s.head (d.OnBlockCacheFilteredTree s.forkChoiceStore s.beaconDB
            s.precomputeBalances block).db block root).head ∧
        d.HeadRoot (ReceiveBlockNoPubsub d cfg s block).service.head
          (ReceiveBlockNoPubsub d cfg s block).service.beaconDB = .ok root.bytes := by
      intro root hroot hok
      obtain ⟨hmem, herr, hhd, hdb⟩ := hdirect root hroot hok
      refine ⟨hmem, hhd, ?_⟩
      rw [hhd, hdb]
      exact hsave _ _ _ _ herr
    refine ⟨hnohead, ?_, fun root hroot => ⟨hnp root hroot, fun hok => ?_⟩⟩
    · cases hroot : d.HashTreeRoot block.Block with
      | error e => simp [ReceiveBlock, hroot]
      | ok root =>
        cases hbc : d.Broadcast block with
        | some e => simp [ReceiveBlock, hroot, hbc]
        | none =>
          obtain ⟨-, -, -, -, -, htr⟩ := receiveBlock_inner d cfg s block root hroot hbc
          rw [htr]
          simpa using hnohead
    · cases hbc : d.Broadcast block with
      | some e => simp [ReceiveBlock, hroot, hbc] at hok
      | none =>
        obtain ⟨hres, -, hdb, hhd, -, htr⟩ := receiveBlock_inner d cfg s block root hroot hbc
        obtain ⟨hmem, hhead, hagree⟩ := hnp root hroot (hres ▸ hok)
        refine ⟨?_, hhd.trans hhead, ?_⟩
        · rw [htr]
          exact List.mem_append_right _ hmem
        · rw [hhd, hdb]
          exact hagree

/-- Witness of C3 amended: with the toggle off, the block of slot 9 arrives,
the store moves its head to the stored block of slot 8, and both calls
succeed; with the toggle on, the block of slot 9 arrives and is saved as head
by both calls. -/
theorem C3_head_agrees_with_fork_choice_witness :
    ((ReceiveBlockNoPubsub (demoDeps (quiet (constRoot 8).bytes)) ⟨false, false⟩
        demoService8 (demoBlock 9)).result = Outcome.ok ∧
      (ReceiveBlock (demoDeps (quiet (constRoot 8).bytes)) ⟨false, false⟩
        demoService8 (demoBlock 9)).result = Outcome.ok ∧
      (∃ h, (demoDeps (quiet (constRoot 8).bytes)).Head
          (ReceiveBlockNoPubsub (demoDeps (quiet (constRoot 8).bytes)) ⟨false, false⟩
            demoService8 (demoBlock 9)).service.forkChoiceStore = .ok h ∧
        (demoDeps (quiet (constRoot 8).bytes)).HeadRoot
          (ReceiveBlockNoPubsub (demoDeps (quiet (constRoot 8).bytes)) ⟨false, false⟩
            demoService8 (demoBlock 9)).service.head
          (ReceiveBlockNoPubsub (demoDeps (quiet (constRoot 8).bytes)) ⟨false, false⟩
            demoService8 (demoBlock 9)).service.beaconDB = .ok h) ∧
      (∃ h, (demoDeps (quiet (constRoot 8).bytes)).Head
          (ReceiveBlock (demoDeps (quiet (constRoot 8).bytes)) ⟨false, false⟩
            demoService8 (demoBlock 9)).service.forkChoiceStore = .ok h ∧
        (demoDeps (quiet (constRoot 8).bytes)).HeadRoot
          (ReceiveBlock (demoDeps (quiet (constRoot 8).bytes)) ⟨false, false⟩
            demoService8 (demoBlock 9)).service.head
          (ReceiveBlock (demoDeps (quiet (constRoot 8).bytes)) ⟨false, false⟩
            demoService8 (demoBlock 9)).service.beaconDB = .ok h)) ∧
    ((ReceiveBlockNoPubsub (demoDeps (quiet (constRoot 7).bytes)) ⟨true, false⟩
        demoService (demoBlock 9)).result = Outcome.ok ∧
      (ReceiveBlock (demoDeps (quiet (constRoot 7).bytes)) ⟨true, false⟩
        demoService (demoBlock 9)).result = Outcome.ok ∧
      Action.Head ∉ (ReceiveBlockNoPubsub (demoDeps (quiet (constRoot 7).bytes)) ⟨true, false⟩
        demoService (demoBlock 9)).trace ∧
      Action.Head ∉ (ReceiveBlock (demoDeps (quiet (constRoot 7).bytes)) ⟨true, false⟩
        demoService (demoBlock 9)).trace ∧
      Action.saveHead (demoBlock 9) (constRoot 9) ∈
        (ReceiveBlockNoPubsub (demoDeps (quiet (constRoot 7).bytes)) ⟨true, false⟩
          demoService (demoBlock 9)).trace ∧
      (demoDeps (quiet (constRoot 7).bytes)).HeadRoot
        (ReceiveBlock (demoDeps (quiet (constRoot 7).bytes)) ⟨true, false⟩
          demoService (demoBlock 9)).service.head
        (ReceiveBlock (demoDeps (quiet (constRoot 7).bytes)) ⟨true, false⟩
          demoService (demoBlock 9)).service.beaconDB = .ok (constRoot 9).bytes) :=
  ⟨⟨rfl, rfl,
      ((C3_head_agrees_with_fork_choice (demoDeps (quiet (constRoot 8).bytes)) ⟨false, false⟩
        demoService8 (demoBlock 9) (fun _ _ _ _ _ => rfl)).1 rfl
        (fun h hh => by
          have h8 : (constRoot 8).bytes = h := by
            simpa [demoDeps, quiet, demoTransition, demoBlock] using hh
          subst h8
          decide)).1 rfl,
      ((C3_head_agrees_with_fork_choice (demoDeps (quiet (constRoot 8).bytes)) ⟨false, false⟩
        demoService8 (demoBlock 9) (fun _ _ _ _ _ => rfl)).1 rfl
        (fun h hh => by
          have h8 : (constRoot 8).bytes = h := by
            simpa [demoDeps, quiet, demoTransition, demoBlock] using hh
          subst h8
          decide)).2 rfl⟩,
    ⟨rfl, rfl,
      ((C3_head_agrees_with_fork_choice (demoDeps (quiet (constRoot 7).bytes)) ⟨true, false⟩
        demoService (demoBlock 9) (fun _ _ _ _ _ => rfl)).2 rfl).1,
      ((C3_head_agrees_with_fork_choice (demoDeps (quiet (constRoot 7).bytes)) ⟨true, false⟩
        demoService (demoBlock 9) (fun _ _ _ _ _ => rfl)).2 rfl).2.1,
      ((((C3_head_agrees_with_fork_choice (demoDeps (quiet (constRoot 7).bytes)) ⟨true, false⟩
        demoService (demoBlock 9) (fun _ _ _ _ _ => rfl)).2 rfl).2.2
          (constRoot 9) rfl).1 rfl).1,
      ((((C3_head_agrees_with_fork_choice (demoDeps (quiet (constRoot 7).bytes)) ⟨true, false⟩
        demoService (demoBlock 9) (fun _ _ _ _ _ => rfl)).2 rfl).2.2
          (constRoot 9) rfl).2 rfl).2.2⟩⟩

/-- What holds of the participation table: `ReceiveBlockNoPubsubForkchoice` and
`ReceiveBlockNoVerify` write it on every successful return, at the epoch of the
processed block's slot, with the balances the state transition left, and
`ReceiveBlockNoPubsub` does so on every successful return on which the
attestation pool did not fail. -/
theorem participation_written_on_success (d : Deps FC DB HD) (cfg : Flags)
    (s : Service FC DB HD) (block : SignedBeaconBlock) :
    ((ReceiveBlockNoPubsubForkchoice d s block).result = Outcome.ok →
      ∃ b, block.Block = some b ∧
        (ReceiveBlockNoPubsubForkchoice d s block).service.epochParticipation =
          mapSet s.epochParticipation (d.SlotToEpoch b.Slot)
            (d.OnBlock s.forkChoiceStore s.beaconDB s.precomputeBalances block).balances) ∧
    ((ReceiveBlockNoVerify d cfg s block).result = Outcome.ok →
      ∃ b, block.Block = some b ∧
        (ReceiveBlockNoVerify d cfg s block).service.epochParticipation =
          mapSet s.epochParticipation (d.SlotToEpoch b.Slot)
            (d.OnBlockInitialSyncStateTransition s.forkChoiceStore s.beaconDB
              s.precomputeBalances block).balances) ∧
    ((ReceiveBlockNoPubsub d cfg s block).result = Outcome.ok →
      ∀ b body, block.Block = some b → b.Body = some body →
        d.SaveBlockAttestations body.Attestations = none →
        (ReceiveBlockNoPubsub d cfg s block).service.epochParticipation =
          mapSet s.epochParticipation (d.SlotToEpoch b.Slot)
            (d.OnBlockCacheFilteredTree s.forkChoiceStore s.beaconDB s.precomputeBalances
              block).balances) := by
  refine ⟨fun hok => ?_, fun hok => ?_, fun hok b body hb hbody hatt => ?_⟩
  · cases ht : (d.OnBlock s.forkChoiceStore s.beaconDB s.precomputeBalances block).err with
    | some e => simp [ReceiveBlockNoPubsubForkchoice, ht] at hok
    | none =>
      cases hroot : d.HashTreeRoot block.Block with
      | error e => simp [ReceiveBlockNoPubsubForkchoice, ht, hroot] at hok
      | ok root =>
        cases hc : d.HeadRoot s.head (d.OnBlock s.forkChoiceStore s.beaconDB
            s.precomputeBalances block).db with
        | error e => simp [ReceiveBlockNoPubsubForkchoice, ht, hroot, hc] at hok
        | ok cachedHeadRoot =>
          simp only [ReceiveBlockNoPubsubForkchoice, ht, hroot, hc] at hok ⊢
          by_cases heq : root.bytes = cachedHeadRoot
          · cases hb : block.Block with
            | none => simp [heq, hb] at hok
            | some b => exact ⟨b, rfl, by simp [heq]⟩
          · cases hs : (d.saveHead s.head (d.OnBlock s.forkChoiceStore s.beaconDB
                s.precomputeBalances block).db block root).err with
            | some e => simp [heq, hs] at hok
            | none =>
              cases hb : block.Block with
              | none => simp [heq, hs, hb] at hok
              | some b => exact ⟨b, rfl, by simp [heq, hs]⟩
  · cases ht : (d.OnBlockInitialSyncStateTransition s.forkChoiceStore s.beaconDB
        s.precomputeBalances block).err with
    | some e => simp [ReceiveBlockNoVerify, ht] at hok
    | none =>
      cases hroot : d.HashTreeRoot block.Block with
      | error e => simp [ReceiveBlockNoVerify, ht, hroot] at hok
      | ok root =>
        cases hc : d.HeadRoot s.head (d.OnBlockInitialSyncStateTransition s.forkChoiceStore
            s.beaconDB s.precomputeBalances block).db with
        | error e => simp [ReceiveBlockNoVerify, ht, hroot, hc] at hok
        | ok cachedHeadRoot =>
          simp only [ReceiveBlockNoVerify, ht, hroot, hc] at hok ⊢
          by_cases heq : root.bytes = cachedHeadRoot
          · cases hb : block.Block with
            | none => cases hflag : cfg.InitSyncCacheState <;> simp [heq, hb, hflag] at hok
            | some b =>
              cases hbody : b.Body with
              | none =>
                cases hflag : cfg.InitSyncCacheState <;> simp [heq, hb, hbody, hflag] at hok
              | some body =>
                refine ⟨b, rfl, ?_⟩
                cases hflag : cfg.InitSyncCacheState <;> simp [heq, hbody]
          · cases hflag : cfg.InitSyncCacheState with
            | true =>
              cases hs : (d.saveHeadNoDB s.head (d.OnBlockInitialSyncStateTransition
                  s.forkChoiceStore s.beaconDB s.precomputeBalances block).db block root).err with
              | some e => simp [heq, hs, hflag] at hok
              | none =>
                cases hb : block.Block with
                | none => simp [heq, hs, hflag, hb] at hok
                | some b =>
                  cases hbody : b.Body with
                  | none => simp [heq, hs, hflag, hb, hbody] at hok
                  | some body => exact ⟨b, rfl, by simp [heq, hs, hbody]⟩
            | false =>
              cases hs : (d.saveHead s.head (d.OnBlockInitialSyncStateTransition
                  s.forkChoiceStore s.beaconDB s.precomputeBalances block).db block root).err with
              | some e => simp [heq, hs, hflag] at hok
              | none =>
                cases hb : block.Block with
                | none => simp [heq, hs, hflag, hb] at hok
                | some b =>
                  cases hbody : b.Body with
                  | none => simp [heq, hs, hflag, hb, hbody] at hok
                  | some body => exact ⟨b, rfl, by simp [heq, hs, hbody]⟩
  · cases ht : (d.OnBlockCacheFilteredTree s.forkChoiceStore s.beaconDB
        s.precomputeBalances block).err with
    | some e => simp [ReceiveBlockNoPubsub, ht] at hok
    | none =>
      cases hroot : d.HashTreeRoot block.Block with
      | error e => simp [ReceiveBlockNoPubsub, ht, hroot] at hok
      | ok root =>
        have hroot' : d.HashTreeRoot (some b) = .ok root := hb ▸ hroot
        simp only [ReceiveBlockNoPubsub, ht, hroot', hb, hbody, hatt] at hok ⊢
        cases hflag : cfg.DisableForkChoice with
        | true =>
          cases hs : (d.saveHead s.head (d.OnBlockCacheFilteredTree s.forkChoiceStore
              s.beaconDB s.precomputeBalances block).db block root).err with
          | some e => simp [hflag, hs] at hok
          | none => simp [hflag, hs]
        | false =>
          cases hh : d.Head (d.OnBlockCacheFilteredTree s.forkChoiceStore s.beaconDB
              s.precomputeBalances block).store with
          | error e => simp [hflag, hh] at hok
          | ok headRoot =>
            cases hc : d.HeadRoot s.head (d.OnBlockCacheFilteredTree s.forkChoiceStore
                s.beaconDB s.precomputeBalances block).db with
            | error e => simp [hflag, hh, hc] at hok
            | ok cachedHeadRoot =>
              by_cases hne : headRoot = cachedHeadRoot
              · simp [hflag, hh, hc, hne]
              · cases hdb : d.Block (d.OnBlockCacheFilteredTree s.forkChoiceStore s.beaconDB
                    s.precomputeBalances block).db (d.ToBytes32 headRoot) with
                | error e => simp [hflag, hh, hc, hne, hdb] at hok
                | ok oblk =>
                  cases oblk with
                  | none => simp [hflag, hh, hc, hne, hdb] at hok
                  | some signedHeadBlock =>
                    cases hhb : signedHeadBlock.Block with
                    | none => simp [hflag, hh, hc, hne, hdb, hhb] at hok
                    | some headBlock =>
                      cases hs : (d.saveHead s.head (d.OnBlockCacheFilteredTree
                          s.forkChoiceStore s.beaconDB s.precomputeBalances block).db
                          signedHeadBlock (d.ToBytes32 headRoot)).err with
                      | some e => simp [hflag, hh, hc, hne, hdb, hhb, hs] at hok
                      | none => simp [hflag, hh, hc, hne, hdb, hhb, hs]

/-- C4 at its failing input: the block of slot 40 (epoch 1) is received while
the attestation pool fails. `ReceiveBlockNoPubsub` and `ReceiveBlock` return
success and leave the participation table without an entry for epoch 1 (and
the counter `processedBlkNoPubsub` untouched), whereas the sibling entry point
`ReceiveBlockNoPubsubForkchoice` writes the entry on the same block. -/
theorem C4_failing_input :
    (demoDeps (poolFails (constRoot 7).bytes)).SlotToEpoch 40 = 1 ∧
      (ReceiveBlockNoPubsub (demoDeps (poolFails (constRoot 7).bytes)) ⟨false, false⟩
        demoService (demoBlock 40)).result = Outcome.ok ∧
      (ReceiveBlockNoPubsub (demoDeps (poolFails (constRoot 7).bytes)) ⟨false, false⟩
        demoService (demoBlock 40)).service.epochParticipation 1 = none ∧
      (ReceiveBlockNoPubsub (demoDeps (poolFails (constRoot 7).bytes)) ⟨false, false⟩
        demoService (demoBlock 40)).service.processedBlkNoPubsub = 0 ∧
      (ReceiveBlock (demoDeps (poolFails (constRoot 7).bytes)) ⟨false, false⟩
        demoService (demoBlock 40)).result = Outcome.ok ∧
      (ReceiveBlock (demoDeps (poolFails (constRoot 7).bytes)) ⟨false, false⟩
        demoService (demoBlock 40)).service.epochParticipation 1 = none ∧
      (ReceiveBlockNoPubsubForkchoice (demoDeps (poolFails (constRoot 7).bytes))
        demoService (demoBlock 40)).result = Outcome.ok ∧
      (ReceiveBlockNoPubsubForkchoice (demoDeps (poolFails (constRoot 7).bytes))
        demoService (demoBlock 40)).service.epochParticipation 1 = some ⟨[40]⟩ :=
  ⟨rfl, rfl, rfl, rfl, rfl, rfl, rfl, rfl⟩

/-- C5: in `ReceiveBlockNoPubsub`, when the state transition and the
head-update step succeed and `attPool.SaveBlockAttestations` returns an error
on the attestations of the block, the call returns success, and its trace ends
with the `BlockProcessed` event, the pool invocation and the error log line, in
this order; the same holds of `ReceiveBlock` once the broadcast went through.
The pool's error is not returned. -/
theorem C5_attestation_pool_error_swallowed (d : Deps FC DB HD) (cfg : Flags)
    (s : Service FC DB HD) (block : SignedBeaconBlock) (root : Root32) (b : BeaconBlock)
    (body : BeaconBlockBody) (err : Error)
    (ht : (d.OnBlockCacheFilteredTree s.forkChoiceStore s.beaconDB s.precomputeBalances
      block).err = none)
    (hroot : d.HashTreeRoot block.Block = .ok root)
    (hhead : HeadStepOk d cfg
      (d.OnBlockCacheFilteredTree s.forkChoiceStore s.beaconDB s.precomputeBalances block).store
      (d.OnBlockCacheFilteredTree s.forkChoiceStore s.beaconDB s.precomputeBalances block).db
      s.head block root)
    (hb : block.Block = some b) (hbody : b.Body = some body)
    (hfail : d.SaveBlockAttestations body.Attestations = some err) :
    ((ReceiveBlockNoPubsub d cfg s block).result = Outcome.ok ∧
      ∃ pre, (ReceiveBlockNoPubsub d cfg s block).trace =
        pre ++ [Action.Send ⟨root, true⟩, Action.SaveBlockAttestations body.Attestations,
          Action.Log (.couldNotSaveAttestation err)]) ∧
    (d.Broadcast block = none →
      (ReceiveBlock d cfg s block).result = Outcome.ok ∧
      ∃ pre, (ReceiveBlock d cfg s block).trace =
        pre ++ [Action.Send ⟨root, true⟩, Action.SaveBlockAttestations body.Attestations,
          Action.Log (.couldNotSaveAttestation err)]) := by
  have hnp : (ReceiveBlockNoPubsub d cfg s block).result = Outcome.ok ∧
      ∃ pre, (ReceiveBlockNoPubsub d cfg s block).trace =
        pre ++ [Action.Send ⟨root, true⟩, Action.SaveBlockAttestations body.Attestations,
          Action.Log (.couldNotSaveAttestation err)] := by
    have hroot' : d.HashTreeRoot (some b) = .ok root := hb ▸ hroot
    cases hhead with
    | direct hcfg hs =>
      simp only [ReceiveBlockNoPubsub, ht, hroot', hcfg, hs, hb, hbody, hfail]
      exact ⟨by simp, [Action.OnBlockCacheFilteredTree block, Action.saveHead block root],
        by simp⟩
    | unchanged headRoot hcfg hh hc =>
      simp only [ReceiveBlockNoPubsub, ht, hroot', hcfg, hh, hc, hb, hbody, hfail]
      exact ⟨by simp, [Action.OnBlockCacheFilteredTree block, Action.Head, Action.HeadRoot],
        by simp⟩
    | replaced headRoot cachedHeadRoot signedHeadBlock headBlock hcfg hh hc hne hdb hhb hs =>
      simp only [ReceiveBlockNoPubsub, ht, hroot', hcfg, hh, hc, hb, hbody, hfail]
      simp only [if_neg hne, if_pos hne, hdb, hhb, hs]
      exact ⟨by simp, [Action.OnBlockCacheFilteredTree block, Action.Head, Action.HeadRoot,
        Action.Block (d.ToBytes32 headRoot),
        Action.saveHead signedHeadBlock (d.ToBytes32 headRoot)] ++
          (isCompetingBlock root.bytes b.Slot headRoot headBlock.Slot s.competingBlks).1,
        by simp⟩
  refine ⟨hnp, fun hbc => ?_⟩
  obtain ⟨hres, -, -, -, -, htr⟩ := receiveBlock_inner d cfg s block root hroot hbc
  obtain ⟨hok, pre, hpre⟩ := hnp
  refine ⟨hres.trans hok, [Action.Broadcast block, Action.Log (.broadcasting root)] ++ pre, ?_⟩
  rw [htr, hpre, List.append_assoc]

/-- Witness of C5: the block of slot 40 arrives, the head stays, the pool
fails. -/
theorem C5_attestation_pool_error_swallowed_witness :
    (demoDeps (poolFails (constRoot 7).bytes)).SaveBlockAttestations demoBody.Attestations
        = some (.New "pool is full") ∧
      (demoDeps (poolFails (constRoot 7).bytes)).Broadcast (demoBlock 40) = none ∧
      (((ReceiveBlockNoPubsub (demoDeps (poolFails (constRoot 7).bytes)) ⟨false, false⟩
          demoService (demoBlock 40)).result = Outcome.ok ∧
        ∃ pre, (ReceiveBlockNoPubsub (demoDeps (poolFails (constRoot 7).bytes)) ⟨false, false⟩
            demoService (demoBlock 40)).trace =
          pre ++ [Action.Send ⟨constRoot 40, true⟩,
            Action.SaveBlockAttestations demoBody.Attestations,
            Action.Log (.couldNotSaveAttestation (.New "pool is full"))]) ∧
      ((demoDeps (poolFails (constRoot 7).bytes)).Broadcast (demoBlock 40) = none →
        (ReceiveBlock (demoDeps (poolFails (constRoot 7).bytes)) ⟨false, false⟩
          demoService (demoBlock 40)).result = Outcome.ok ∧
        ∃ pre, (ReceiveBlock (demoDeps (poolFails (constRoot 7).bytes)) ⟨false, false⟩
            demoService (demoBlock 40)).trace =
          pre ++ [Action.Send ⟨constRoot 40, true⟩,
            Action.SaveBlockAttestations demoBody.Attestations,
            Action.Log (.couldNotSaveAttestation (.New "pool is full"))])) :=
  ⟨rfl, rfl,
    C5_attestation_pool_error_swallowed (demoDeps (poolFails (constRoot 7).bytes))
      ⟨false, false⟩ demoService (demoBlock 40) (constRoot 40) ⟨40, [], some demoBody⟩ demoBody
      (.New "pool is full") rfl rfl (.unchanged (constRoot 7).bytes rfl rfl rfl) rfl rfl rfl⟩

/-- C6: a failure at or before the state transition makes the call return an
error with the head tracker and the participation table exactly as before, no
head save and no feed send: for a failing `p2p.Broadcast` in `ReceiveBlock`
(where, besides, the fork-choice store is not invoked and keeps its state), and
for a failing `OnBlockCacheFilteredTree`, `OnBlock` or
`OnBlockInitialSyncStateTransition` in the entry point that calls it. -/
theorem C6_early_failure_leaves_state (d : Deps FC DB HD) (cfg : Flags)
    (s : Service FC DB HD) (block : SignedBeaconBlock) :
    (∀ e, d.Broadcast block = some e →
      AbortedClean s (ReceiveBlock d cfg s block) ∧
      (ReceiveBlock d cfg s block).service.forkChoiceStore = s.forkChoiceStore ∧
      ∀ a ∈ (ReceiveBlock d cfg s block).trace, a.isForkChoice = false) ∧
    (∀ e, (d.OnBlockCacheFilteredTree s.forkChoiceStore s.beaconDB s.precomputeBalances
        block).err = some e →
      AbortedClean s (ReceiveBlockNoPubsub d cfg s block) ∧
      AbortedClean s (ReceiveBlock d cfg s block)) ∧
    (∀ e, (d.OnBlock s.forkChoiceStore s.beaconDB s.precomputeBalances block).err = some e →
      AbortedClean s (ReceiveBlockNoPubsubForkchoice d s block)) ∧
    (∀ e, (d.OnBlockInitialSyncStateTransition s.forkChoiceStore s.beaconDB
        s.precomputeBalances block).err = some e →
      AbortedClean s (ReceiveBlockNoVerify d cfg s block)) := by
  have hnp : ∀ e, (d.OnBlockCacheFilteredTree s.forkChoiceStore s.beaconDB
      s.precomputeBalances block).err = some e →
      AbortedClean s (ReceiveBlockNoPubsub d cfg s block) := by
    intro e he
    simp [AbortedClean, ReceiveBlockNoPubsub, he, Action.isHeadSave, Action.isSend]
  refine ⟨fun e he => ?_, fun e he => ⟨hnp e he, ?_⟩, fun e he => ?_, fun e he => ?_⟩
  · cases hroot : d.HashTreeRoot block.Block <;>
      simp [AbortedClean, ReceiveBlock, hroot, he, Action.isHeadSave, Action.isSend,
        Action.isForkChoice]
  · cases hroot : d.HashTreeRoot block.Block with
    | error e' => simp [AbortedClean, ReceiveBlock, hroot]
    | ok root =>
      cases hbc : d.Broadcast block with
      | some e' =>
        simp [AbortedClean, ReceiveBlock, hroot, hbc, Action.isHeadSave, Action.isSend]
      | none =>
        obtain ⟨hres, -, -, hhd, hep, htr⟩ := receiveBlock_inner d cfg s block root hroot hbc
        obtain ⟨herr, h1, h2, h3⟩ := hnp e he
        refine ⟨hres ▸ herr, hhd.trans h1, hep.trans h2, fun a ha => ?_⟩
        rw [htr] at ha
        simp only [List.cons_append, List.nil_append, List.mem_cons] at ha
        rcases ha with rfl | rfl | ha
        · exact ⟨rfl, rfl⟩
        · exact ⟨rfl, rfl⟩
        · exact h3 a ha
  · simp [AbortedClean, ReceiveBlockNoPubsubForkchoice, he, Action.isHeadSave, Action.isSend]
  · simp [AbortedClean, ReceiveBlockNoVerify, he, Action.isHeadSave, Action.isSend]

/-- Witness of C6: a node whose broadcast and state transitions all fail. -/
theorem C6_early_failure_leaves_state_witness :
    (demoDeps allFail).Broadcast (demoBlock 9) = some (.New "no peers") ∧
      ((demoDeps allFail).OnBlockCacheFilteredTree demoService.forkChoiceStore
        demoService.beaconDB demoService.precomputeBalances (demoBlock 9)).err
        = some (.New "invalid parent") ∧
      ((demoDeps allFail).OnBlock demoService.forkChoiceStore
        demoService.beaconDB demoService.precomputeBalances (demoBlock 9)).err
        = some (.New "invalid parent") ∧
      ((demoDeps allFail).OnBlockInitialSyncStateTransition demoService.forkChoiceStore
        demoService.beaconDB demoService.precomputeBalances (demoBlock 9)).err
        = some (.New "invalid parent") ∧
      AbortedClean demoService (ReceiveBlock (demoDeps allFail) ⟨false, false⟩ demoService
        (demoBlock 9)) ∧
      AbortedClean demoService (ReceiveBlockNoPubsub (demoDeps allFail) ⟨false, false⟩
        demoService (demoBlock 9)) ∧
      AbortedClean demoService (ReceiveBlockNoPubsubForkchoice (demoDeps allFail) demoService
        (demoBlock 9)) ∧
      AbortedClean demoService (ReceiveBlockNoVerify (demoDeps allFail) ⟨false, false⟩
        demoService (demoBlock 9)) :=
  ⟨rfl, rfl, rfl, rfl,
    ((C6_early_failure_leaves_state (demoDeps allFail) ⟨false, false⟩ demoService
      (demoBlock 9)).1 _ rfl).1,
    ((C6_early_failure_leaves_state (demoDeps allFail) ⟨false, false⟩ demoService
      (demoBlock 9)).2.1 _ rfl).1,
    (C6_early_failure_leaves_state (demoDeps allFail) ⟨false, false⟩ demoService
      (demoBlock 9)).2.2.1 _ rfl,
    (C6_early_failure_leaves_state (demoDeps allFail) ⟨false, false⟩ demoService
      (demoBlock 9)).2.2.2 _ rfl⟩

/-- C7: in `ReceiveBlockNoPubsubForkchoice` and `ReceiveBlockNoVerify`, once
the state transition succeeded and the block's root and the cached head root
are at hand, a head save with the processed block and its root is performed if
and only if the root differs from the cached head root; when it differs the
head tracker is what that save leaves, when they are equal no head save is
performed and the head tracker is unchanged; `forkChoiceStore.Head` is never
queried; and in `ReceiveBlockNoVerify` the save is `saveHeadNoDB` exactly when
`InitSyncCacheState` is on and `saveHead` exactly when it is off. -/
theorem C7_direct_head_update (d : Deps FC DB HD) (cfg : Flags) (s : Service FC DB HD)
    (block : SignedBeaconBlock) (root : Root32) (cachedHeadRoot : Bytes)
    (hroot : d.HashTreeRoot block.Block = .ok root) :
    ((d.OnBlock s.forkChoiceStore s.beaconDB s.precomputeBalances block).err = none →
      d.HeadRoot s.head (d.OnBlock s.forkChoiceStore s.beaconDB s.precomputeBalances
        block).db = .ok cachedHeadRoot →
      (Action.saveHead block root ∈ (ReceiveBlockNoPubsubForkchoice d s block).trace ↔
        root.bytes ≠ cachedHeadRoot) ∧
      Action.saveHeadNoDB block root ∉ (ReceiveBlockNoPubsubForkchoice d s block).trace ∧
      (root.bytes ≠ cachedHeadRoot →
        (ReceiveBlockNoPubsubForkchoice d s block).service.head =
          (d.saveHead s.head (d.OnBlock s.forkChoiceStore s.beaconDB s.precomputeBalances
            block).db block root).head) ∧
      (root.bytes = cachedHeadRoot →
        (∀ a ∈ (ReceiveBlockNoPubsubForkchoice d s block).trace, a.isHeadSave = false) ∧
        (ReceiveBlockNoPubsubForkchoice d s block).service.head = s.head) ∧
      Action.Head ∉ (ReceiveBlockNoPubsubForkchoice d s block).trace) ∧
    ((d.OnBlockInitialSyncStateTransition s.forkChoiceStore s.beaconDB s.precomputeBalances
        block).err = none →
      d.HeadRoot s.head (d.OnBlockInitialSyncStateTransition s.forkChoiceStore s.beaconDB
        s.precomputeBalances block).db = .ok cachedHeadRoot →
      (Action.saveHeadNoDB block root ∈ (ReceiveBlockNoVerify d cfg s block).trace ↔
        root.bytes ≠ cachedHeadRoot ∧ cfg.InitSyncCacheState = true) ∧
      (Action.saveHead block root ∈ (ReceiveBlockNoVerify d cfg s block).trace ↔
        root.bytes ≠ cachedHeadRoot ∧ cfg.InitSyncCacheState = false) ∧
      (root.bytes ≠ cachedHeadRoot → cfg.InitSyncCacheState = true →
        (ReceiveBlockNoVerify d cfg s block).service.head =
          (d.saveHeadNoDB s.head (d.OnBlockInitialSyncStateTransition s.forkChoiceStore
            s.beaconDB s.precomputeBalances block).db block root).head) ∧
      (root.bytes ≠ cachedHeadRoot → cfg.InitSyncCacheState = false →
        (ReceiveBlockNoVerify d cfg s block).service.head =
          (d.saveHead s.head (d.OnBlockInitialSyncStateTransition s.forkChoiceStore
            s.beaconDB s.precomputeBalances block).db block root).head) ∧
      (root.bytes = cachedHeadRoot →
        (∀ a ∈ (ReceiveBlockNoVerify d cfg s block).trace, a.isHeadSave = false) ∧
        (ReceiveBlockNoVerify d cfg s block).service.head = s.head) ∧
      Action.Head ∉ (ReceiveBlockNoVerify d cfg s block).trace) := by
  constructor
  · intro ht hc
    simp only [ReceiveBlockNoPubsubForkchoice, ht, hroot, hc]
    by_cases heq : root.bytes = cachedHeadRoot
    · cases hb : block.Block <;> simp [heq, Action.isHeadSave]
    · cases hs : (d.saveHead s.head (d.OnBlock s.forkChoiceStore s.beaconDB
          s.precomputeBalances block).db block root).err with
      | some e => simp [heq, hs]
      | none => cases hb : block.Block <;> simp [heq, hs]
  · intro ht hc
    simp only [ReceiveBlockNoVerify, ht, hroot, hc]
    by_cases heq : root.bytes = cachedHeadRoot
    · cases hb : block.Block with
      | none => cases cfg.InitSyncCacheState <;> simp [heq, Action.isHeadSave]
      | some b =>
        cases hbody : b.Body <;> cases cfg.InitSyncCacheState <;>
          simp [heq, hbody, Action.isHeadSave]
    · cases hflag : cfg.InitSyncCacheState with
      | true =>
        cases hs : (d.saveHeadNoDB s.head (d.OnBlockInitialSyncStateTransition
            s.forkChoiceStore s.beaconDB s.precomputeBalances block).db block root).err with
        | some e => simp [heq, hs]
        | none =>
          cases hb : block.Block with
          | none => simp [heq, hs]
          | some b => cases hbody : b.Body <;> simp [heq, hs, hbody]
      | false =>
        cases hs : (d.saveHead s.head (d.OnBlockInitialSyncStateTransition
            s.forkChoiceStore s.beaconDB s.precomputeBalances block).db block root).err with
        | some e => simp [heq, hs]
        | none =>
          cases hb : block.Block with
          | none => simp [heq, hs]
          | some b => cases hbody : b.Body <;> simp [heq, hs, hbody]

/-- Witness of C7: the block of slot 9 arrives at a node whose cached head is
the block of slot 7, with `InitSyncCacheState` on. -/
theorem C7_direct_head_update_witness :
    (demoDeps (quiet (constRoot 7).bytes)).HashTreeRoot (demoBlock 9).Block
        = .ok (constRoot 9) ∧
      (constRoot 9).bytes ≠ (constRoot 7).bytes ∧
      Action.saveHead (demoBlock 9) (constRoot 9) ∈
        (ReceiveBlockNoPubsubForkchoice (demoDeps (quiet (constRoot 7).bytes)) demoService
          (demoBlock 9)).trace ∧
      Action.saveHeadNoDB (demoBlock 9) (constRoot 9) ∈
        (ReceiveBlockNoVerify (demoDeps (quiet (constRoot 7).bytes)) ⟨false, true⟩ demoService
          (demoBlock 9)).trace ∧
      Action.saveHead (demoBlock 9) (constRoot 9) ∉
        (ReceiveBlockNoVerify (demoDeps (quiet (constRoot 7).bytes)) ⟨false, true⟩ demoService
          (demoBlock 9)).trace :=
  ⟨rfl, by decide,
    ((C7_direct_head_update (demoDeps (quiet (constRoot 7).bytes)) ⟨false, true⟩ demoService
      (demoBlock 9) (constRoot 9) (constRoot 7).bytes rfl).1 rfl rfl).1.mpr (by decide),
    ((C7_direct_head_update (demoDeps (quiet (constRoot 7).bytes)) ⟨false, true⟩ demoService
      (demoBlock 9) (constRoot 9) (constRoot 7).bytes rfl).2 rfl rfl).1.mpr
      ⟨by decide, rfl⟩,
    fun h => Bool.noConfusion
      (((C7_direct_head_update (demoDeps (quiet (constRoot 7).bytes)) ⟨false, true⟩
        demoService (demoBlock 9) (constRoot 9) (constRoot 7).bytes rfl).2 rfl rfl).2.1.mp
        h).2⟩

/-- C8: in `ReceiveBlockNoPubsub`, when the state transition succeeded and the
head-update step fails (`forkChoiceStore.Head`, `HeadRoot` or `beaconDB.Block`
errors, the loaded head block or its inner block is nil, or `saveHead`
errors), the call returns an error, no event is sent, the attestation pool is
not invoked, the participation table is unchanged, the fork-choice store keeps
the state the transition gave it, and, provided a failing `saveHead` leaves the
head tracker untouched, the head tracker is unchanged. -/
theorem C8_head_step_failure (d : Deps FC DB HD) (cfg : Flags) (s : Service FC DB HD)
    (block : SignedBeaconBlock) (root : Root32)
    (ht : (d.OnBlockCacheFilteredTree s.forkChoiceStore s.beaconDB s.precomputeBalances
      block).err = none)
    (hroot : d.HashTreeRoot block.Block = .ok root)
    (hfails : HeadStepFails d cfg
      (d.OnBlockCacheFilteredTree s.forkChoiceStore s.beaconDB s.precomputeBalances block).store
      (d.OnBlockCacheFilteredTree s.forkChoiceStore s.beaconDB s.precomputeBalances block).db
      s.head block root) :
    (∃ e, (ReceiveBlockNoPubsub d cfg s block).result = Outcome.error e) ∧
      (∀ a ∈ (ReceiveBlockNoPubsub d cfg s block).trace,
        a.isSend = false ∧ a.isAttPool = false) ∧
      (ReceiveBlockNoPubsub d cfg s block).service.epochParticipation
        = s.epochParticipation ∧
      (ReceiveBlockNoPubsub d cfg s block).service.forkChoiceStore =
        (d.OnBlockCacheFilteredTree s.forkChoiceStore s.beaconDB s.precomputeBalances
          block).store ∧
      ((∀ hd db b r, (d.saveHead hd db b r).err ≠ none → (d.saveHead hd db b r).head = hd) →
        (ReceiveBlockNoPubsub d cfg s block).service.head = s.head) := by
  cases hfails with
  | saveHeadDirect e hcfg hs =>
    simp only [ReceiveBlockNoPubsub, ht, hroot, hcfg, hs]
    refine ⟨⟨_, rfl⟩, by simp [Action.isSend, Action.isAttPool], rfl, rfl, fun h => ?_⟩
    exact h _ _ _ _ (by simp [hs])
  | headQuery e hcfg hh =>
    simp [ReceiveBlockNoPubsub, ht, hroot, hcfg, hh, Action.isSend, Action.isAttPool]
  | headRoot headRoot e hcfg hh hc =>
    simp [ReceiveBlockNoPubsub, ht, hroot, hcfg, hh, hc, Action.isSend, Action.isAttPool]
  | blockLoad headRoot cachedHeadRoot e hcfg hh hc hne hdb =>
    simp [ReceiveBlockNoPubsub, ht, hroot, hcfg, hh, hc, hne, hdb, Action.isSend,
      Action.isAttPool]
  | nilHeadBlock headRoot cachedHeadRoot hcfg hh hc hne hdb =>
    simp [ReceiveBlockNoPubsub, ht, hroot, hcfg, hh, hc, hne, hdb, Action.isSend,
      Action.isAttPool]
  | nilInnerBlock headRoot cachedHeadRoot signedHeadBlock hcfg hh hc hne hdb hhb =>
    simp [ReceiveBlockNoPubsub, ht, hroot, hcfg, hh, hc, hne, hdb, hhb, Action.isSend,
      Action.isAttPool]
  | saveHead headRoot cachedHeadRoot signedHeadBlock headBlock e hcfg hh hc hne hdb hhb hs =>
    simp only [ReceiveBlockNoPubsub, ht, hroot, hcfg, hh, hc]
    simp only [if_neg hne, if_pos hne, hdb, hhb, hs]
    refine ⟨⟨_, rfl⟩, by simp [Action.isSend, Action.isAttPool], rfl, rfl, fun h => ?_⟩
    exact h _ _ _ _ (by simp [hs])

/-- Witness of C8: the store moves its head to the stored block of slot 8 and
the save of that head fails, leaving the head tracker as it was. -/
theorem C8_head_step_failure_witness :
    (∃ e, (ReceiveBlockNoPubsub (demoDeps (saveFails (constRoot 8).bytes)) ⟨false, false⟩
        demoService8 (demoBlock 9)).result = Outcome.error e) ∧
      (∀ a ∈ (ReceiveBlockNoPubsub (demoDeps (saveFails (constRoot 8).bytes)) ⟨false, false⟩
          demoService8 (demoBlock 9)).trace, a.isSend = false ∧ a.isAttPool = false) ∧
      (ReceiveBlockNoPubsub (demoDeps (saveFails (constRoot 8).bytes)) ⟨false, false⟩
        demoService8 (demoBlock 9)).service.epochParticipation
        = demoService8.epochParticipation ∧
      (ReceiveBlockNoPubsub (demoDeps (saveFails (constRoot 8).bytes)) ⟨false, false⟩
        demoService8 (demoBlock 9)).service.forkChoiceStore =
        ((demoDeps (saveFails (constRoot 8).bytes)).OnBlockCacheFilteredTree
          demoService8.forkChoiceStore demoService8.beaconDB demoService8.precomputeBalances
          (demoBlock 9)).store ∧
      ((∀ hd db b r, ((demoDeps (saveFails (constRoot 8).bytes)).saveHead hd db b r).err ≠ none →
          ((demoDeps (saveFails (constRoot 8).bytes)).saveHead hd db b r).head = hd) →
        (ReceiveBlockNoPubsub (demoDeps (saveFails (constRoot 8).bytes)) ⟨false, false⟩
          demoService8 (demoBlock 9)).service.head = demoService8.head) :=
  C8_head_step_failure (demoDeps (saveFails (constRoot 8).bytes)) ⟨false, false⟩ demoService8
    (demoBlock 9) (constRoot 9) rfl rfl
    (.saveHead (constRoot 8).bytes (constRoot 7).bytes (demoBlock 8) ⟨8, [], some demoBody⟩
      (.New "disk is full") rfl rfl rfl (by decide) rfl rfl rfl)

/-- The modelled validator passes the six rows of `TestValidation`. -/
theorem tests_pass : tests.all runTest = true := by
  decide

/-- C9: when the validator index of the exit is not in the registry of the
state (index at or beyond the number of validators), `ValidateVoluntaryExit`
returns `UnknownValidator index`, of message "unknown validator index
<index>", whatever the clock, the genesis time, the declared epoch, the
signature bytes and the answers of the BLS oracle. -/
theorem C9_unknown_validator_first (env : ExitEnv) (state : BeaconState)
    (genesisTime : Nat) (signed : SignedVoluntaryExit)
    (hidx : state.Validators.length ≤ signed.Exit.ValidatorIndex) :
    ValidateVoluntaryExit env state genesisTime signed
        = some (.UnknownValidator signed.Exit.ValidatorIndex) ∧
      (ValidateVoluntaryExit env state genesisTime signed).map ExitError.Error
        = some ("unknown validator index " ++ toString signed.Exit.ValidatorIndex) := by
  have hnone : state.Validators[signed.Exit.ValidatorIndex]? = none := by
    simp [hidx]
  simp only [ValidateVoluntaryExit, hnone]
  exact ⟨trivial, rfl⟩

/-- Witness of C9: the row MissingValidator of the test table, index 16 in the
state of eight validators, here with a signature that does not even
deserialize. -/
theorem C9_unknown_validator_first_witness :
    testState.Validators.length ≤ 16 ∧
      ValidateVoluntaryExit testEnv testState testGenesisTime
          ⟨⟨2048, 16⟩, List.replicate 96 0⟩ = some (.UnknownValidator 16) ∧
      (ValidateVoluntaryExit testEnv testState testGenesisTime
          ⟨⟨2048, 16⟩, List.replicate 96 0⟩).map ExitError.Error
        = some ("unknown validator index " ++ toString 16) :=
  ⟨by decide,
    C9_unknown_validator_first testEnv testState testGenesisTime
      ⟨⟨2048, 16⟩, List.replicate 96 0⟩ (by decide)⟩

/-- C10, as stated, fails on the row Good of the test table: for validator 0
the required epoch 2048 exceeds the current epoch 100, and yet the exit of
declared epoch 2048 is accepted, as the table expects (`err` is nil); with the
signature left out the rejection is the malformed signature, not `TooEarly`. -/
theorem C10_counterexample :
    testState.Validators[0]? = some ⟨[0], 0, 2 ^ 64 - 1⟩ ∧
      currentEpoch testEnv testGenesisTime = 100 ∧
      0 + testEnv.MinActiveDuration = 2048 ∧
      (tests.map fun t => (t.name, t.epoch, t.validatorIndex, t.err)).get? 5
        = some ("Good", 2048, 0, none) ∧
      ValidateVoluntaryExit testEnv testState testGenesisTime ⟨⟨2048, 0⟩, goodSignature⟩
        = none ∧
      ValidateVoluntaryExit testEnv testState testGenesisTime ⟨⟨2048, 0⟩, []⟩
        = some (.MalformedSignature "signature must be 96 bytes") := by
  decide

/-- C10, amended: when the validator index is in the registry,
`ValidateVoluntaryExit` returns `TooEarly validatorIndex requiredEpoch`, of
message "validator <index> cannot exit before epoch <requiredEpoch>", with
`requiredEpoch` the activation epoch plus the minimum active duration, whenever
the declared epoch of the message is below that required epoch, whatever the
current epoch, the signature bytes and the answers of the BLS oracle; and when
the declared epoch has reached the required epoch it does not return
`TooEarly`, even if the required epoch exceeds the current epoch. -/
theorem C10_too_early_before_signature (env : ExitEnv) (state : BeaconState)
    (genesisTime : Nat) (signed : SignedVoluntaryExit) (validator : Validator)
    (hval : state.Validators[signed.Exit.ValidatorIndex]? = some validator) :
    (signed.Exit.Epoch < validator.ActivationEpoch + env.MinActiveDuration →
      ValidateVoluntaryExit env state genesisTime signed
          = some (.TooEarly signed.Exit.ValidatorIndex
              (validator.ActivationEpoch + env.MinActiveDuration)) ∧
        (ValidateVoluntaryExit env state genesisTime signed).map ExitError.Error
          = some ("validator " ++ toString signed.Exit.ValidatorIndex
              ++ " cannot exit before epoch "
              ++ toString (validator.ActivationEpoch + env.MinActiveDuration))) ∧
    (validator.ActivationEpoch + env.MinActiveDuration ≤ signed.Exit.Epoch →
      ∀ index requiredEpoch, ValidateVoluntaryExit env state genesisTime signed
        ≠ some (.TooEarly index requiredEpoch)) := by
  constructor
  · intro hdecl
    simp only [ValidateVoluntaryExit, hval, if_pos hdecl]
    exact ⟨trivial, rfl⟩
  · intro hreached index requiredEpoch
    have hnot : ¬ signed.Exit.Epoch < validator.ActivationEpoch + env.MinActiveDuration :=
      Nat.not_lt.mpr hreached
    simp only [ValidateVoluntaryExit, hval, if_neg hnot]
    split
    · simp
    · split
      · simp
      · split <;> simp

/-- Witness of C10 amended: declared epoch 2047 for validator 0, the row
EarlyExit of the test table, here with the signature of the row Good and the
wall clock at epoch 3000, past the required epoch 2048; and the row Good
itself, declared epoch 2048 at current epoch 100. -/
theorem C10_too_early_before_signature_witness :
    currentEpoch lateEnv testGenesisTime = 3000 ∧
      (ValidateVoluntaryExit lateEnv testState testGenesisTime ⟨⟨2047, 0⟩, goodSignature⟩
          = some (.TooEarly 0 2048) ∧
        (ValidateVoluntaryExit lateEnv testState testGenesisTime
            ⟨⟨2047, 0⟩, goodSignature⟩).map ExitError.Error
          = some ("validator " ++ toString 0 ++ " cannot exit before epoch "
              ++ toString 2048)) ∧
      currentEpoch testEnv testGenesisTime = 100 ∧
      (∀ index requiredEpoch,
        ValidateVoluntaryExit testEnv testState testGenesisTime ⟨⟨2048, 0⟩, goodSignature⟩
          ≠ some (.TooEarly index requiredEpoch)) :=
  ⟨by decide,
    (C10_too_early_before_signature lateEnv testState testGenesisTime
      ⟨⟨2047, 0⟩, goodSignature⟩ ⟨[0], 0, 2 ^ 64 - 1⟩ (by decide)).1 (by decide),
    by decide,
    (C10_too_early_before_signature testEnv testState testGenesisTime
      ⟨⟨2048, 0⟩, goodSignature⟩ ⟨[0], 0, 2 ^ 64 - 1⟩ (by decide)).2 (by decide)⟩

end Prysm
